import Mathlib

/-!
# Verification of the VrProject streaming core (pc_app_cpp)

A shallow embedding of the C++ sources under `pc_app_cpp/` into Lean 4,
with theorems settling the frozen claims about the capture / encode /
broadcast pipeline.

Conventions of the embedding:
* machine unsigned integers (`u32`, `size_t`, …) are modelled as `ℕ`;
  signed ones (`i32`) as `ℤ`;
* `f32` values that only ever flow through arithmetic are modelled as `ℚ`
  (exact arithmetic); `f32` configuration fields that are printed to and
  re-parsed from the YAML file are modelled as nonnegative decimal numbers
  (`Dec` below), the domain on which the iostream default formatting is
  exact;
* `std::string` is modelled as `List Char`;
* truncating casts `static_cast<u32>(f)` of a nonnegative float are
  `Nat.floor` of the corresponding rational;
* stateful components become explicit state types with step functions,
  and reachability is an inductive predicate over the step relation.
-/

namespace VRS

/-- A character string, modelling `std::string`. -/
abbrev Str := List Char

/-- A nonnegative decimal number `mant / 10 ^ exp`.  This models the `f32`
configuration fields (`downscale_factor`, `eye_separation`,
`ping_interval`) on the subdomain where the C++ iostream default
formatting (six significant digits, no exponent) prints the value
exactly, so that `operator<<` and `std::stof` are exact on it. -/
structure Dec where
  mant : ℕ
  exp : ℕ
deriving DecidableEq, Repr

/-- Rational value of a `Dec`. -/
def Dec.toQ (d : Dec) : ℚ := (d.mant : ℚ) / (10 ^ d.exp : ℚ)

/-- `EncoderConfig::Method` from `include/core/config.hpp`. -/
inductive Method where
  | JPEG | NVJPEG | TURBOJPEG | H264 | RAW
deriving DecidableEq, Repr

/-- `CaptureConfig` from `include/core/config.hpp` (member defaults are in
`defaultCaptureConfig`). -/
structure CaptureConfig where
  target_fps : ℕ
  monitor_index : ℕ
  capture_cursor : Bool
  use_gpu_capture : Bool
  frame_buffer_count : ℕ
  wait_for_vsync : Bool
deriving DecidableEq, Repr

/-- `EncoderConfig` from `include/core/config.hpp`. -/
structure EncoderConfig where
  jpeg_quality : ℕ
  downscale_factor : Dec
  output_width : ℕ
  output_height : ℕ
  method : Method
  vr_enabled : Bool
  eye_separation : Dec
  use_gpu : Bool
  gpu_device_id : ℤ
  use_nvenc : Bool
  use_nvjpeg : Bool
  h264_bitrate : ℕ
  h264_gop_length : ℕ
  h264_low_latency : Bool
deriving DecidableEq, Repr

/-- `NetworkConfig` from `include/core/config.hpp`. -/
structure NetworkConfig where
  host : Str
  port : ℕ
  http_port : ℕ
  static_ip : Str
  max_clients : ℕ
  send_buffer_size : ℕ
  ping_interval : Dec
  use_tcp_nodelay : Bool
  use_cork : Bool
deriving DecidableEq, Repr

/-- `Config` from `include/core/config.hpp`. -/
structure Config where
  capture : CaptureConfig
  encoder : EncoderConfig
  network : NetworkConfig
deriving DecidableEq, Repr

/-- The default-constructed `CaptureConfig` (member initializers in
`config.hpp`). -/
def defaultCaptureConfig : CaptureConfig :=
  { target_fps := 60, monitor_index := 0, capture_cursor := true
    use_gpu_capture := true, frame_buffer_count := 3, wait_for_vsync := false }

/-- The default-constructed `EncoderConfig` (member initializers in
`config.hpp`): `downscale_factor = 0.65f`, `eye_separation = 0.03f`. -/
def defaultEncoderConfig : EncoderConfig :=
  { jpeg_quality := 65, downscale_factor := ⟨65, 2⟩
    output_width := 0, output_height := 0, method := .TURBOJPEG
    vr_enabled := true, eye_separation := ⟨3, 2⟩
    use_gpu := true, gpu_device_id := 0, use_nvenc := true, use_nvjpeg := true
    h264_bitrate := 20000, h264_gop_length := 30, h264_low_latency := true }

/-- The default-constructed `NetworkConfig` (member initializers in
`config.hpp`): `host = "0.0.0.0"`, `ping_interval = 1.0f`. -/
def defaultNetworkConfig : NetworkConfig :=
  { host := "0.0.0.0".toList, port := 8765, http_port := 8080
    static_ip := [], max_clients := 4, send_buffer_size := 64 * 1024
    ping_interval := ⟨1, 0⟩, use_tcp_nodelay := true, use_cork := false }

/-- The default-constructed `Config` (`Config config;` in C++, the start
state of `Config::load`). -/
def defaultConfig : Config :=
  { capture := defaultCaptureConfig, encoder := defaultEncoderConfig
    network := defaultNetworkConfig }

/-! ## Stereo shaper — `CPUStereoProcessor::process_scaled`
(`src/encoder/stereo_processor.cpp`, lines 34–102)

The input raster is modelled as a function from flat byte offset to byte
value; `processScaledPixel input Wi Hi pitch ch Wo Ho es x y c` is the
byte the routine stores at output offset `y * (Wo*3) + x*3 + c`, i.e. the
output pixel `(x, y)`, channel `c`. -/

/-- Left-eye source column for output column `x < Wo/2`: the loop body
```
u32 src_x = static_cast<u32>(x * x_scale);
if (src_x + separation_pixels < input_width)
    src_x = std::min(src_x, input_width - separation_pixels - 1);
```
with `x_scale = f32(Wi) / half` modelled exactly. -/
def leftSrcX (Wi sep half : ℕ) (x : ℕ) : ℕ :=
  let sx := ⌊(x : ℚ) * ((Wi : ℚ) / (half : ℚ))⌋₊
  if sx + sep < Wi then min sx (Wi - sep - 1) else sx

/-- Right-eye source column for relative output column `xrel = x - Wo/2`:
```
u32 src_x = static_cast<u32>(x * x_scale) + separation_pixels;
src_x = std::min(src_x, input_width - 1);
``` -/
def rightSrcX (Wi sep half : ℕ) (xrel : ℕ) : ℕ :=
  min (⌊(xrel : ℚ) * ((Wi : ℚ) / (half : ℚ))⌋₊ + sep) (Wi - 1)

/-- The source column the claims say should be used for the left half:
`sx = min(floor(x * sx_scale), Wi - sep - 1)` (spec §4.D). -/
def specLeftSrcX (Wi sep half : ℕ) (x : ℕ) : ℕ :=
  min ⌊(x : ℚ) * ((Wi : ℚ) / (half : ℚ))⌋₊ (Wi - sep - 1)

/-- Byte written by `CPUStereoProcessor::process_scaled` at output pixel
`(x, y)`, channel `c` (the value stored at `output[y*Wo*3 + x*3 + c]`):
row `src_y = u32(y * y_scale)`, then the left- or right-eye column,
reading `input[src_y * input_pitch + src_x * input_channels + c]`. -/
def processScaledPixel (input : ℕ → ℕ) (Wi Hi pitch ch Wo Ho : ℕ)
    (es : ℚ) (x y c : ℕ) : ℕ :=
  let half := Wo / 2
  let sep := ⌊(Wi : ℚ) * es⌋₊
  let srcY := ⌊(y : ℚ) * ((Hi : ℚ) / (Ho : ℚ))⌋₊
  if x < half then
    input (srcY * pitch + leftSrcX Wi sep half x * ch + c)
  else
    input (srcY * pitch + rightSrcX Wi sep half (x - half) * ch + c)

/-- `process_scaled` returns `output_pitch = output_width * 3`; this is
also what `AutoStereoProcessor::process_scaled` returns, since
`CUDAStereoProcessor::init` always returns `false` in this source and the
CPU processor is selected. -/
def stereoResultPitch (Wo : ℕ) : ℕ := Wo * 3

/-! ## Encoder pipeline — `VRFrameEncoder::encode`
(`src/encoder/stereo_processor.cpp`, lines 376–461) -/

/-- Output dimensions computed at the top of `VRFrameEncoder::encode`:
downscale (when `downscale_factor < 1.0f`), then the
`output_width/output_height` override, then forcing both even. -/
def encodeOutputDims (cfg : EncoderConfig) (width height : ℕ) : ℕ × ℕ :=
  let p :=
    if cfg.downscale_factor.toQ < 1 then
      (⌊(width : ℚ) * cfg.downscale_factor.toQ⌋₊,
       ⌊(height : ℚ) * cfg.downscale_factor.toQ⌋₊)
    else (width, height)
  let p :=
    if 0 < cfg.output_width ∧ 0 < cfg.output_height then
      (cfg.output_width, cfg.output_height)
    else p
  (p.1 / 2 * 2, p.2 / 2 * 2)

/-- The `(width, height, pitch, channels)` argument quadruple that
`VRFrameEncoder::encode` hands to the JPEG compressor: the stereo buffer
dimensions when `vr_enabled` and the stereo pass reported a nonzero
pitch, otherwise the untouched input. -/
def encodeCompressorInput (cfg : EncoderConfig)
    (width height pitch channels : ℕ) : ℕ × ℕ × ℕ × ℕ :=
  let d := encodeOutputDims cfg width height
  if cfg.vr_enabled ∧ 0 < stereoResultPitch d.1 then
    (d.1, d.2, d.1 * 3, 3)
  else
    (width, height, pitch, channels)

/-- Image dimensions of the JPEG bitstream produced by a call to
`VRFrameEncoder::encode`: the compressor (`tjCompress2`) encodes exactly
the `width × height` raster it is given. -/
def encodeJPEGDims (cfg : EncoderConfig) (width height pitch channels : ℕ) :
    ℕ × ℕ :=
  let q := encodeCompressorInput cfg width height pitch channels
  (q.1, q.2.1)

/-- `OpenCVJPEGEncoder::encode` (`src/encoder/jpeg_encoder.cpp`, lines
366–388): ignores all inputs and returns 0 bytes written.  Arguments are
`(width, height, pitch, channels, quality)`. -/
def opencvEncode : ℕ → ℕ → ℕ → ℕ → ℕ → ℕ := fun _ _ _ _ _ => 0

/-- The statistics fields touched at the end of `VRFrameEncoder::encode`;
the compression ratio `(f64) raw_size / encoded_size` is kept as the
numerator/denominator pair actually divided. -/
structure EncodeStats where
  frames_encoded : ℕ
  bytes_encoded : ℕ
  ratio_num : ℕ
  ratio_den : ℕ
deriving DecidableEq, Repr

/-- One call of `VRFrameEncoder::encode` with a given JPEG backend
(modelled as a function of `(width, height, pitch, channels, quality)`):
returns the encoded size and the updated stats.  The final lines are
```
size_t raw_size = encode_width * encode_height * encode_channels;
stats_.compression_ratio = static_cast<f64>(raw_size) / encoded_size;
```
so `ratio_den` is the backend's reported size, unconditionally. -/
def vrEncode (backend : ℕ → ℕ → ℕ → ℕ → ℕ → ℕ) (cfg : EncoderConfig)
    (s : EncodeStats) (width height pitch channels : ℕ) :
    ℕ × EncodeStats :=
  let q := encodeCompressorInput cfg width height pitch channels
  let encodedSize := backend q.1 q.2.1 q.2.2.1 q.2.2.2 cfg.jpeg_quality
  (encodedSize,
    { frames_encoded := s.frames_encoded + 1
      bytes_encoded := s.bytes_encoded + encodedSize
      ratio_num := q.1 * q.2.1 * q.2.2.2
      ratio_den := encodedSize })

/-! ## SPSC ring buffer — `SPSCQueue<T, N>`
(`include/core/spsc_queue.hpp`, lines 19–160).  The template requires
`is_power_of_2(N) && N >= 2`; only the index state matters for the
claims, so the state is the `head_`/`tail_` pair. -/

/-- Index state of `SPSCQueue`. -/
structure SPSC where
  head : ℕ
  tail : ℕ
deriving DecidableEq, Repr

/-- `try_push`: computes `next = (tail + 1) & MASK` (`MASK = N - 1`),
fails iff `next == head`, otherwise stores and advances the tail. -/
def SPSC.tryPush (N : ℕ) (s : SPSC) : Bool × SPSC :=
  let next := (s.tail + 1) &&& (N - 1)
  if next = s.head then (false, s)
  else (true, { s with tail := next })

/-- `try_pop`: fails iff `head == tail`, otherwise advances
`head` to `(head + 1) & MASK`. -/
def SPSC.tryPop (N : ℕ) (s : SPSC) : Bool × SPSC :=
  if s.head = s.tail then (false, s)
  else (true, { s with head := (s.head + 1) &&& (N - 1) })

/-- States of the queue reachable from the initial `head_ = tail_ = 0`
through `try_push` / `try_pop` calls. -/
inductive SPSC.Reachable (N : ℕ) : SPSC → Prop where
  | init : SPSC.Reachable N ⟨0, 0⟩
  | push {s : SPSC} : SPSC.Reachable N s → SPSC.Reachable N (s.tryPush N).2
  | pop {s : SPSC} : SPSC.Reachable N s → SPSC.Reachable N (s.tryPop N).2

/-! ## Frame buffer pool — `FrameBufferPool`
(`include/core/memory_pool.hpp`, lines 19–126).

The counting state of the pool: `free` is `free_buffers_.size()`;
`inUse` counts buffers handed out by `acquire` and neither released nor
destroyed yet. -/

/-- Counting state of a `FrameBufferPool`. -/
structure Pool where
  free : ℕ
  inUse : ℕ
deriving DecidableEq, Repr

/-- `acquire()`: if the free list is empty, synthesizes a fresh buffer
(`std::make_shared` + `allocate`), otherwise pops the free list; either
way the caller now holds one more buffer. -/
def Pool.acquire (s : Pool) : Pool :=
  if s.free = 0 then { free := 0, inUse := s.inUse + 1 }
  else { free := s.free - 1, inUse := s.inUse + 1 }

/-- `release(buf)` by a current holder: pushes the buffer back iff
`free_buffers_.size() < pool_size_ * 2`, else lets it be destroyed. -/
def Pool.release (poolSize : ℕ) (s : Pool) : Pool :=
  if s.free < 2 * poolSize then { free := s.free + 1, inUse := s.inUse - 1 }
  else { free := s.free, inUse := s.inUse - 1 }

/-- A holder destroying its `BufferPtr` without returning it (the
`shared_ptr` simply dies, e.g. a `release` on a full pool already counted
by `Pool.release`, or a dropped pointer). -/
def Pool.drop (s : Pool) : Pool := { s with inUse := s.inUse - 1 }

/-- Pool states reachable from construction (`pool_size` pre-allocated
free buffers, none in use) by acquire / release / drop. -/
inductive Pool.Reachable (poolSize : ℕ) : Pool → Prop where
  | init : Pool.Reachable poolSize ⟨poolSize, 0⟩
  | acquire {s : Pool} : Pool.Reachable poolSize s →
      Pool.Reachable poolSize s.acquire
  | release {s : Pool} : Pool.Reachable poolSize s → 0 < s.inUse →
      Pool.Reachable poolSize (s.release poolSize)
  | drop {s : Pool} : Pool.Reachable poolSize s → 0 < s.inUse →
      Pool.Reachable poolSize s.drop

/-! ## Capture recovery — `CaptureManager`
(`src/capture/dxgi_capture.cpp`, lines 708–793;
`MAX_RECOVERY_ATTEMPTS = 3` in `include/capture/dxgi_capture.hpp`). -/

/-- The target a `DXGICapture::init*` call is made against. -/
inductive InitTarget where
  | monitor (index : ℕ)
  | window (hwnd : ℕ)
deriving DecidableEq, Repr

/-- The state of the underlying `DXGICapture` that `CaptureManager`
observes: whether it is initialized, and against which target the last
successful `init` ran. -/
structure DXGIState where
  initialized : Bool
  target : InitTarget
deriving DecidableEq, Repr

/-- `CaptureManager` state: the wrapped capture, `recovery_attempts_`,
`use_window_capture_`, and `selected_window_.hwnd` (0 for no window). -/
structure CaptureManager where
  capture : DXGIState
  recovery_attempts : ℕ
  use_window_capture : Bool
  selected_window : ℕ
deriving DecidableEq, Repr

/-- `CaptureManager::set_monitor(i)`: clears the window selection and
re-initializes the capture against monitor `i`; `initOk` tells whether
the underlying `DXGICapture::init(i)` succeeded. -/
def CaptureManager.setMonitor (m : CaptureManager) (i : ℕ) (initOk : Bool) :
    CaptureManager :=
  { m with use_window_capture := false, selected_window := 0
           capture := { initialized := initOk, target := .monitor i } }

/-- `CaptureManager::set_window(hwnd)`: records the window and
re-initializes against it. -/
def CaptureManager.setWindow (m : CaptureManager) (hwnd : ℕ) (initOk : Bool) :
    CaptureManager :=
  { m with use_window_capture := true, selected_window := hwnd
           capture := { initialized := initOk, target := .window hwnd } }

/-- The display-duplication session being lost: the underlying capture is
no longer initialized. -/
def CaptureManager.loseSession (m : CaptureManager) : CaptureManager :=
  { m with capture := { m.capture with initialized := false } }

/-- `CaptureManager::capture` (lines 764–793): if the underlying capture
is not initialized, give up once `recovery_attempts_ >= MAX_RECOVERY_ATTEMPTS`,
otherwise bump the attempt counter and re-initialize — against
`selected_window_.hwnd` when `use_window_capture_ && selected_window_.hwnd`,
and against **monitor 0** (`capture_.init(0)`) otherwise; on success reset
the counter and capture a frame.  `initOk` models which `init` targets
succeed and `frameOk` the result of `capture_frame`. -/
def CaptureManager.captureStep (m : CaptureManager)
    (initOk : InitTarget → Bool) (frameOk : Bool) : CaptureManager × Bool :=
  if m.capture.initialized then (m, frameOk)
  else if 3 ≤ m.recovery_attempts then (m, false)
  else
    let t : InitTarget :=
      if m.use_window_capture ∧ m.selected_window ≠ 0 then
        .window m.selected_window
      else .monitor 0
    let m' := { m with recovery_attempts := m.recovery_attempts + 1 }
    if initOk t then
      ({ m' with capture := { initialized := true, target := t }
                 recovery_attempts := 0 }, frameOk)
    else (m', false)

/-! ## Broadcast server registry — `StreamingServer::on_accept`
(`src/network/websocket_server.cpp`, lines 338–368),
`WebSocketSession::on_accept` (lines 70–86) and
`register_session` / `unregister_session` (lines 405–421).

The registry `sessions_` is a map keyed by client id, modelled by its
key list.  The max-clients check and the registration are **separate
asynchronous events** in the source: `StreamingServer::on_accept` checks
`client_count() < max_clients` — `client_count()` reads
`sessions_.size()`, the registered sessions only — and merely starts the
websocket handshake; the session registers itself later, in
`WebSocketSession::on_accept`, with no re-check.  The state therefore
also tracks the accepted connections whose handshake is still in
flight. -/

/-- Outcome of `StreamingServer::on_accept` for an inbound connection. -/
inductive AcceptOutcome where
  /-- A `WebSocketSession` was created and `session->start()` began the
  websocket handshake. -/
  | handshake
  /-- `socket.close()` without creating a session: rejected before any
  handshake. -/
  | rejected
deriving DecidableEq, Repr

/-- `sessions_[id] = session`: map insert (size grows only for a new
key). -/
def registerSession (regs : List String) (id : String) : List String :=
  if id ∈ regs then regs else id :: regs

/-- Connection state of the server: `registry` is the key list of
`sessions_`; `pending` are the connections accepted by
`StreamingServer::on_accept` whose handshake has not yet completed
(no `register_session` call has run for them). -/
structure ServerState where
  registry : List String
  pending : List String
deriving DecidableEq, Repr

/-- `StreamingServer::on_accept` on a successfully accepted socket:
when `client_count() < config_.max_clients` (the registry only — in-flight
handshakes are invisible to the check) a session is created and its
asynchronous handshake started; otherwise the socket is closed with no
handshake. -/
def acceptStep (maxClients : ℕ) (s : ServerState) (id : String) :
    ServerState × AcceptOutcome :=
  if s.registry.length < maxClients then
    ({ s with pending := id :: s.pending }, .handshake)
  else (s, .rejected)

/-- `WebSocketSession::on_accept` with no error: the handshake completed
and the session registers itself via `register_session` — there is no
re-check of `max_clients` here. -/
def handshakeDone (s : ServerState) (id : String) : ServerState :=
  { registry := registerSession s.registry id, pending := s.pending.erase id }

/-- `WebSocketSession::on_accept` with an error: the session is dropped
without registering. -/
def handshakeFail (s : ServerState) (id : String) : ServerState :=
  { s with pending := s.pending.erase id }

/-- `unregister_session(id)`. -/
def unregisterStep (s : ServerState) (id : String) : ServerState :=
  { s with registry := s.registry.erase id }

/-- States reachable from server start through any interleaving of
accepts, handshake completions and failures, and disconnects — accepts
may overlap with in-flight handshakes, as in the asynchronous source. -/
inductive Server.Reachable (maxClients : ℕ) : ServerState → Prop where
  | init : Server.Reachable maxClients ⟨[], []⟩
  | accept {s : ServerState} (id : String) :
      Server.Reachable maxClients s →
      Server.Reachable maxClients (acceptStep maxClients s id).1
  | done {s : ServerState} (id : String) :
      Server.Reachable maxClients s → id ∈ s.pending →
      Server.Reachable maxClients (handshakeDone s id)
  | fail {s : ServerState} (id : String) :
      Server.Reachable maxClients s → id ∈ s.pending →
      Server.Reachable maxClients (handshakeFail s id)
  | unregister {s : ServerState} (id : String) :
      Server.Reachable maxClients s →
      Server.Reachable maxClients (unregisterStep s id)

/-- Serialized executions: a new connection is accepted only when no
handshake is in flight (every connection attempt resolves before the
next one arrives).  The other events are as in `Server.Reachable`. -/
inductive Server.SerialReachable (maxClients : ℕ) : ServerState → Prop where
  | init : Server.SerialReachable maxClients ⟨[], []⟩
  | accept {s : ServerState} (id : String) :
      Server.SerialReachable maxClients s → s.pending = [] →
      Server.SerialReachable maxClients (acceptStep maxClients s id).1
  | done {s : ServerState} (id : String) :
      Server.SerialReachable maxClients s → id ∈ s.pending →
      Server.SerialReachable maxClients (handshakeDone s id)
  | fail {s : ServerState} (id : String) :
      Server.SerialReachable maxClients s → id ∈ s.pending →
      Server.SerialReachable maxClients (handshakeFail s id)
  | unregister {s : ServerState} (id : String) :
      Server.SerialReachable maxClients s →
      Server.SerialReachable maxClients (unregisterStep s id)

/-! ## Runtime quality setters — `VRStreamerApp::set_quality` /
`set_downscale` (`src/core/vr_streamer_app.cpp`, lines 443–461). -/

/-- `std::clamp(v, lo, hi)` on naturals: `v < lo ? lo : hi < v ? hi : v`. -/
def cppClampNat (v lo hi : ℕ) : ℕ :=
  if v < lo then lo else if hi < v then hi else v

/-- `std::clamp(v, lo, hi)` on exact rationals (the `f32` arguments are
modelled as `ℚ`). -/
def cppClampQ (v lo hi : ℚ) : ℚ :=
  if v < lo then lo else if hi < v then hi else v

/-- `VRStreamerApp::set_quality(quality)`: stores
`std::clamp(quality, 1u, 100u)` into `config_.encoder.jpeg_quality` and
pushes the config to the encoder.  The returned flag records whether the
error callback `on_error_` was invoked anywhere on this path (it is not).
-/
def setQuality (cfg : EncoderConfig) (quality : ℕ) : EncoderConfig × Bool :=
  ({ cfg with jpeg_quality := cppClampNat quality 1 100 }, false)

/-- `VRStreamerApp::set_downscale(factor)`: stores
`std::clamp(factor, 0.1f, 1.0f)` into `config_.encoder.downscale_factor`
(value modelled in `ℚ`); the flag again records an `on_error_` call
(none). -/
def setDownscale (factor : ℚ) : ℚ × Bool :=
  (cppClampQ factor (1/10) 1, false)

/-! ## Configuration file round trip — `Config::save` / `Config::load`
(`src/core/config.cpp`, lines 13–275)

The file is modelled as a list of lines (each a `Str`); `Config::save`
writes the exact lines of `saveLines` and `Config::load` consumes them
line by line.  Rendering of numbers models `operator<<` and parsing
models `std::stoi` / `std::stof` / the hand-written `parse_value` and
`parse_bool` lambdas. -/

/-- Decimal digits of `n`, most significant first, with explicit fuel
(structural recursion so that terms evaluate in the kernel); the fuel is
always at least `n + 1`. -/
def natToCharsAux : ℕ → ℕ → Str
  | 0, _ => []
  | fuel + 1, n =>
    if n < 10 then [Char.ofNat (48 + n)]
    else natToCharsAux fuel (n / 10) ++ [Char.ofNat (48 + n % 10)]

/-- `operator<<` on an unsigned integer: its decimal digits. -/
def natToChars (n : ℕ) : Str := natToCharsAux (n + 1) n

/-- `operator<<` on a signed integer (`i32 gpu_device_id`). -/
def intToChars (z : ℤ) : Str :=
  if z < 0 then '-' :: natToChars z.natAbs else natToChars z.toNat

/-- `(b ? "true" : "false")` as written by `Config::save`. -/
def boolChars (b : Bool) : Str :=
  if b then "true".toList else "false".toList

/-- Digits of `n` left-padded with `'0'` to width `k` (the fractional
part of a printed decimal). -/
def padNat (k n : ℕ) : Str :=
  List.replicate (k - (natToChars n).length) '0' ++ natToChars n

/-- `operator<<` on an `f32` modelled as an exact decimal `Dec`:
`mant / 10^exp` printed as `⟨integer part⟩.⟨exp fraction digits⟩`
(just the integer digits when `exp = 0`). -/
def decToChars (d : Dec) : Str :=
  if d.exp = 0 then natToChars d.mant
  else natToChars (d.mant / 10 ^ d.exp) ++
    '.' :: padNat d.exp (d.mant % 10 ^ d.exp)

/-- The `compression_method` strings written by `Config::save`. -/
def methodChars : Method → Str
  | .JPEG => "jpeg".toList
  | .NVJPEG => "nvjpeg".toList
  | .TURBOJPEG => "turbojpeg".toList
  | .H264 => "h264".toList
  | .RAW => "raw".toList

/-- One `"  <key>: <value>"` line as `Config::save` writes it: two
spaces, the key, a colon, a space, the rendered value. -/
def kvLine (key val : Str) : Str :=
  ' ' :: ' ' :: (key ++ ':' :: ' ' :: val)

/-- The exact sequence of lines `Config::save` writes (the `\n\n`
separators appear as empty lines). -/
def saveLines (c : Config) : List Str :=
  [ "# VR Streamer Configuration".toList,
    [],
    "capture:".toList,
    kvLine "target_fps".toList (natToChars c.capture.target_fps),
    kvLine "monitor_index".toList (natToChars c.capture.monitor_index),
    kvLine "capture_cursor".toList (boolChars c.capture.capture_cursor),
    kvLine "use_gpu_capture".toList (boolChars c.capture.use_gpu_capture),
    kvLine "frame_buffer_count".toList (natToChars c.capture.frame_buffer_count),
    kvLine "wait_for_vsync".toList (boolChars c.capture.wait_for_vsync),
    [],
    "encoder:".toList,
    kvLine "jpeg_quality".toList (natToChars c.encoder.jpeg_quality),
    kvLine "downscale_factor".toList (decToChars c.encoder.downscale_factor),
    kvLine "output_width".toList (natToChars c.encoder.output_width),
    kvLine "output_height".toList (natToChars c.encoder.output_height),
    kvLine "compression_method".toList (methodChars c.encoder.method),
    kvLine "vr_enabled".toList (boolChars c.encoder.vr_enabled),
    kvLine "eye_separation".toList (decToChars c.encoder.eye_separation),
    kvLine "use_gpu".toList (boolChars c.encoder.use_gpu),
    kvLine "gpu_device_id".toList (intToChars c.encoder.gpu_device_id),
    kvLine "use_nvenc".toList (boolChars c.encoder.use_nvenc),
    kvLine "use_nvjpeg".toList (boolChars c.encoder.use_nvjpeg),
    kvLine "h264_bitrate".toList (natToChars c.encoder.h264_bitrate),
    kvLine "h264_gop_length".toList (natToChars c.encoder.h264_gop_length),
    kvLine "h264_low_latency".toList (boolChars c.encoder.h264_low_latency),
    [],
    "network:".toList,
    kvLine "host".toList ('"' :: c.network.host ++ ['"']),
    kvLine "port".toList (natToChars c.network.port),
    kvLine "http_port".toList (natToChars c.network.http_port),
    kvLine "static_ip".toList ('"' :: c.network.static_ip ++ ['"']),
    kvLine "max_clients".toList (natToChars c.network.max_clients),
    kvLine "send_buffer_size".toList (natToChars c.network.send_buffer_size),
    kvLine "ping_interval".toList (decToChars c.network.ping_interval),
    kvLine "use_tcp_nodelay".toList (boolChars c.network.use_tcp_nodelay),
    kvLine "use_cork".toList (boolChars c.network.use_cork) ]

/-- `line.find(':')` followed by `line.substr(pos + 1)`: the remainder
after the first `':'`, or `none` when there is no colon (in which case
`parse_value` returns the empty string). -/
def afterColon : Str → Option Str
  | [] => none
  | c :: cs => if c = ':' then some cs else afterColon cs

/-- The front-trim loop of `parse_value`: erase leading `' '` and `'"'`. -/
def trimFrontVal : Str → Str
  | [] => []
  | c :: cs => if c = ' ' ∨ c = '"' then trimFrontVal cs else c :: cs

/-- The back-trim loop of `parse_value` applied to a reversed string:
erase `' '`, `'"'` and `'\r'`. -/
def trimBackAux : Str → Str
  | [] => []
  | c :: cs => if c = ' ' ∨ c = '"' ∨ c = '\r' then trimBackAux cs else c :: cs

/-- The `parse_value` lambda of `Config::load`. -/
def parseValue (line : Str) : Str :=
  match afterColon line with
  | none => []
  | some v => (trimBackAux (trimFrontVal v).reverse).reverse

/-- `haystack.find(pat) != std::string::npos`. -/
def containsSub (pat : Str) : Str → Bool
  | [] => pat.isEmpty
  | s@(_ :: rest) => pat.isPrefixOf s || containsSub pat rest

/-- The `parse_bool` lambda of `Config::load`. -/
def parseBool (s : Str) : Bool :=
  s == "true".toList || s == "yes".toList || s == "1".toList

/-- Accumulate leading decimal digits, stopping at the first non-digit
(the numeral semantics of `std::stoi` / the mantissa scan of
`std::stof`). -/
def readDigits : Str → ℕ → ℕ
  | [], acc => acc
  | c :: cs, acc =>
    if c.isDigit then readDigits cs (acc * 10 + (c.toNat - 48)) else acc

/-- `std::stoi` on an unsigned value string. -/
def stoiNat (s : Str) : ℕ := readDigits s 0

/-- `std::stoi` on a possibly signed value string. -/
def stoiInt (s : Str) : ℤ :=
  if s.headD ' ' = '-' then -(readDigits s.tail 0 : ℤ)
  else (readDigits s 0 : ℤ)

/-- `std::stof` on a plain decimal string, landing in the exact-decimal
model: integer digits, then an optional `'.'` and fraction digits. -/
def stofDec (s : Str) : Dec :=
  let ip := s.takeWhile (·.isDigit)
  let rest := s.dropWhile (·.isDigit)
  match rest with
  | '.' :: fs =>
    let fp := fs.takeWhile (·.isDigit)
    ⟨readDigits ip 0 * 10 ^ fp.length + readDigits fp 0, fp.length⟩
  | _ => ⟨readDigits ip 0, 0⟩

/-- The `capture` section of the `Config::load` dispatch (the chain of
`line.find("<key>:") != npos` tests, in source order). -/
def captureDispatch (cfg : Config) (line value : Str) : Config :=
  if containsSub "target_fps:".toList line then
    { cfg with capture.target_fps := stoiNat value }
  else if containsSub "monitor_index:".toList line then
    { cfg with capture.monitor_index := stoiNat value }
  else if containsSub "capture_cursor:".toList line then
    { cfg with capture.capture_cursor := parseBool value }
  else if containsSub "use_gpu_capture:".toList line then
    { cfg with capture.use_gpu_capture := parseBool value }
  else if containsSub "frame_buffer_count:".toList line then
    { cfg with capture.frame_buffer_count := stoiNat value }
  else if containsSub "wait_for_vsync:".toList line then
    { cfg with capture.wait_for_vsync := parseBool value }
  else cfg

/-- The `encoder` section of the `Config::load` dispatch. -/
def encoderDispatch (cfg : Config) (line value : Str) : Config :=
  if containsSub "jpeg_quality:".toList line then
    { cfg with encoder.jpeg_quality := stoiNat value }
  else if containsSub "downscale_factor:".toList line then
    { cfg with encoder.downscale_factor := stofDec value }
  else if containsSub "output_width:".toList line then
    { cfg with encoder.output_width := stoiNat value }
  else if containsSub "output_height:".toList line then
    { cfg with encoder.output_height := stoiNat value }
  else if containsSub "compression_method:".toList line then
    if value = "jpeg".toList then { cfg with encoder.method := .JPEG }
    else if value = "nvjpeg".toList then { cfg with encoder.method := .NVJPEG }
    else if value = "turbojpeg".toList then { cfg with encoder.method := .TURBOJPEG }
    else if value = "h264".toList then { cfg with encoder.method := .H264 }
    else if value = "raw".toList then { cfg with encoder.method := .RAW }
    else cfg
  else if containsSub "vr_enabled:".toList line then
    { cfg with encoder.vr_enabled := parseBool value }
  else if containsSub "eye_separation:".toList line then
    { cfg with encoder.eye_separation := stofDec value }
  else if containsSub "use_gpu:".toList line then
    { cfg with encoder.use_gpu := parseBool value }
  else if containsSub "gpu_device_id:".toList line then
    { cfg with encoder.gpu_device_id := stoiInt value }
  else if containsSub "use_nvenc:".toList line then
    { cfg with encoder.use_nvenc := parseBool value }
  else if containsSub "use_nvjpeg:".toList line then
    { cfg with encoder.use_nvjpeg := parseBool value }
  else if containsSub "h264_bitrate:".toList line then
    { cfg with encoder.h264_bitrate := stoiNat value }
  else if containsSub "h264_gop_length:".toList line then
    { cfg with encoder.h264_gop_length := stoiNat value }
  else if containsSub "h264_low_latency:".toList line then
    { cfg with encoder.h264_low_latency := parseBool value }
  else cfg

/-- The `network` section of the `Config::load` dispatch — note
`http_port:` is tested before `port:`, and the `u16` ports go through a
`static_cast<u16>` (`% 2^16`). -/
def networkDispatch (cfg : Config) (line value : Str) : Config :=
  if containsSub "host:".toList line then
    { cfg with network.host := value }
  else if containsSub "http_port:".toList line then
    { cfg with network.http_port := stoiNat value % 65536 }
  else if containsSub "port:".toList line then
    { cfg with network.port := stoiNat value % 65536 }
  else if containsSub "static_ip:".toList line then
    { cfg with network.static_ip := value }
  else if containsSub "max_clients:".toList line then
    { cfg with network.max_clients := stoiNat value }
  else if containsSub "send_buffer_size:".toList line then
    { cfg with network.send_buffer_size := stoiNat value }
  else if containsSub "ping_interval:".toList line then
    { cfg with network.ping_interval := stofDec value }
  else if containsSub "use_tcp_nodelay:".toList line then
    { cfg with network.use_tcp_nodelay := parseBool value }
  else if containsSub "use_cork:".toList line then
    { cfg with network.use_cork := parseBool value }
  else cfg

/-- One iteration of the `while (std::getline(...))` loop of
`Config::load`: skip empty and `#` lines, recognize section headers
(`line[0] != ' ' && line.back() == ':'`), otherwise parse the value and
dispatch on the current section. -/
def loadStep (p : Config × Str) (line : Str) : Config × Str :=
  if line = [] then p
  else if line.headD ' ' = '#' then p
  else if line.headD ' ' ≠ ' ' ∧ line.getLastD ' ' = ':' then
    (p.1, line.dropLast)
  else
    let value := parseValue line
    if value = [] then p
    else if p.2 = "capture".toList then (captureDispatch p.1 line value, p.2)
    else if p.2 = "encoder".toList then (encoderDispatch p.1 line value, p.2)
    else if p.2 = "network".toList then (networkDispatch p.1 line value, p.2)
    else p

/-- `Config::load` over a list of lines: fold the loop body from the
default-constructed `Config` and the empty section name. -/
def loadLines (lines : List Str) : Config :=
  (lines.foldl loadStep (defaultConfig, [])).1

/-- Characters that can appear in a host-like string value: no quotes,
spaces, colons, CR or `#`, so `parse_value` and the key dispatch treat
the value verbatim. -/
def plainChar (c : Char) : Prop :=
  c.isAlphanum = true ∨ c = '.' ∨ c = '-' ∨ c = '_'

instance (c : Char) : Decidable (plainChar c) := by
  unfold plainChar
  infer_instance

/-- A nonempty string of `plainChar`s. -/
def plainStr (s : Str) : Prop := s ≠ [] ∧ ∀ c ∈ s, plainChar c

instance (s : Str) : Decidable (plainStr s) := by
  unfold plainStr
  infer_instance

/-- The C8 counterexample configuration: defaults except
`network.host = ""`. -/
def cfgC8 : Config :=
  { defaultConfig with network.host := [] }

/-! ## Theorems for the claims -/

/-- The C1 scenario's encoder config: `quality=65, downscale=0.5,
vr=false`, no output override (from `defaultEncoderConfig`,
`output_width = output_height = 0`). -/
def cfgC1 : EncoderConfig :=
  { defaultEncoderConfig with downscale_factor := ⟨5, 1⟩, vr_enabled := false }

/-- C1 counterexample: for a 1920×1080 BGRA input with
`downscale_factor = 0.5`, `vr_enabled = false` and no output override,
`VRFrameEncoder::encode` does **not** produce a 960×540 JPEG — the input
passes through to the compressor untouched. -/
theorem C1_claim_false :
    encodeJPEGDims cfgC1 1920 1080 (1920 * 4) 4 ≠ (960, 540) := by
  decide

/-- C1 amended: with `vr_enabled = false` the JPEG keeps the input
dimensions 1920×1080 — the downscale factor is applied only through the
stereo path — while the same config with `vr_enabled = true` yields
960×540. -/
theorem C1_amended_thm :
    encodeJPEGDims cfgC1 1920 1080 (1920 * 4) 4 = (1920, 1080) ∧
    encodeJPEGDims { cfgC1 with vr_enabled := true } 1920 1080 (1920 * 4) 4 =
      (960, 540) := by
  constructor
  · decide
  · simp only [encodeJPEGDims, encodeCompressorInput, encodeOutputDims,
      stereoResultPitch, Dec.toQ, cfgC1, defaultEncoderConfig]
    norm_num

/-- C2: the left-eye clamp
`if (src_x + sep < Wi) src_x = min(src_x, Wi - sep - 1);` is a provable
no-op (under its guard the `min` is the identity), so the left-half
source column is the unclamped `floor(x * sx_scale)`; at the failing
input `Wi = 100, Hi = 2, (Wo, Ho) = (100, 2), eye_separation = 0.03,
(x, y) = (49, 0)` the code samples column 98 while the claimed formula
`min(floor(x * sx_scale), Wi - sep - 1)` gives 96, and the byte copied
is `input[0*400 + 98*4 + 0] = 392` on the identity raster. -/
theorem C2_code_divergence :
    (∀ Wi sep half x : ℕ,
      leftSrcX Wi sep half x = ⌊(x : ℚ) * ((Wi : ℚ) / (half : ℚ))⌋₊) ∧
    leftSrcX 100 3 50 49 = 98 ∧ specLeftSrcX 100 3 50 49 = 96 ∧
    processScaledPixel (fun o => o) 100 2 400 4 100 2 (3/100) 49 0 0 = 392 := by
  have hgen : ∀ Wi sep half x : ℕ,
      leftSrcX Wi sep half x = ⌊(x : ℚ) * ((Wi : ℚ) / (half : ℚ))⌋₊ := by
    intro Wi sep half x
    unfold leftSrcX
    by_cases h : ⌊(x : ℚ) * ((Wi : ℚ) / (half : ℚ))⌋₊ + sep < Wi
    · simp only [if_pos h]
      exact min_eq_left (by omega)
    · simp only [if_neg h]
  have hfloor : ⌊(49 : ℚ) * ((100 : ℚ) / (50 : ℚ))⌋₊ = 98 := by norm_num
  refine ⟨hgen, ?_, ?_, ?_⟩
  · rw [hgen]
    exact_mod_cast hfloor
  · unfold specLeftSrcX
    push_cast
    norm_num
  · unfold processScaledPixel
    rw [if_pos (by norm_num)]
    rw [show (⌊((100 : ℕ) : ℚ) * (3 / 100 : ℚ)⌋₊ : ℕ) = 3 by norm_num]
    rw [hgen]
    rw [show ((100 / 2 : ℕ) : ℚ) = (50 : ℚ) by norm_num]
    rw [show (((49 : ℕ)) : ℚ) = (49 : ℚ) by norm_num,
        show (((100 : ℕ)) : ℚ) = (100 : ℚ) by norm_num, hfloor]
    norm_num

/-- C3 counterexample: after `set_monitor(5)` succeeded, a later recovery
in `CaptureManager::capture` re-initializes against monitor 0, not
monitor 5 (`capture_.init(0)` is hard-coded). -/
theorem C3_claim_false :
    ((((CaptureManager.mk ⟨true, .monitor 0⟩ 0 false 0).setMonitor 5
        true).loseSession.captureStep (fun _ => true) true).1.capture.target
      = .monitor 0) ∧ InitTarget.monitor 0 ≠ .monitor 5 := by
  decide

/-- C3 amended: when the underlying source is uninitialized,
`CaptureManager::capture` gives up once `recovery_attempts_ ≥ 3`
(returning the state unchanged) and otherwise re-initializes against the
last configured **window** when window capture is selected, but against
**monitor 0** — regardless of any earlier `set_monitor(i)` — otherwise;
a successful re-init resets the attempt counter. -/
theorem C3_amended_thm (m : CaptureManager) (initOk : InitTarget → Bool)
    (frameOk : Bool) (hinit : m.capture.initialized = false) :
    (3 ≤ m.recovery_attempts → m.captureStep initOk frameOk = (m, false)) ∧
    (m.recovery_attempts < 3 →
      ∀ t : InitTarget,
        t = (if m.use_window_capture ∧ m.selected_window ≠ 0 then
              .window m.selected_window else .monitor 0) →
        initOk t = true →
        (m.captureStep initOk frameOk).1.capture = ⟨true, t⟩ ∧
        (m.captureStep initOk frameOk).1.recovery_attempts = 0) := by
  constructor
  · intro hb
    unfold CaptureManager.captureStep
    rw [if_neg (by simp [hinit]), if_pos hb]
  · intro hlt t ht hok
    subst ht
    unfold CaptureManager.captureStep
    rw [if_neg (by simp [hinit]), if_neg (by omega)]
    simp [hok]

/-- Witness for `C3_amended_thm` at a concrete manager: uninitialized,
zero attempts, monitor capture, all inits succeeding. -/
theorem C3_amended_witness :
    ((CaptureManager.mk ⟨false, .monitor 7⟩ 0 false 0).capture.initialized
       = false) ∧
    ((3 ≤ (0 : ℕ) →
        (CaptureManager.mk ⟨false, .monitor 7⟩ 0 false 0).captureStep
          (fun _ => true) true = (CaptureManager.mk ⟨false, .monitor 7⟩ 0 false 0, false)) ∧
     ((0 : ℕ) < 3 →
      ∀ t : InitTarget,
        t = (if (CaptureManager.mk ⟨false, .monitor 7⟩ 0 false 0).use_window_capture ∧
               (CaptureManager.mk ⟨false, .monitor 7⟩ 0 false 0).selected_window ≠ 0 then
              .window (CaptureManager.mk ⟨false, .monitor 7⟩ 0 false 0).selected_window
             else .monitor 0) →
        (fun _ : InitTarget => true) t = true →
        (((CaptureManager.mk ⟨false, .monitor 7⟩ 0 false 0).captureStep
            (fun _ => true) true).1.capture = ⟨true, t⟩ ∧
         ((CaptureManager.mk ⟨false, .monitor 7⟩ 0 false 0).captureStep
            (fun _ => true) true).1.recovery_attempts = 0))) :=
  ⟨rfl, C3_amended_thm (CaptureManager.mk ⟨false, .monitor 7⟩ 0 false 0)
    (fun _ => true) true rfl⟩

/-- C4 counterexample: with `pool_size = 1`, three `acquire` calls are
reachable and leave `free_count + in_use_count = 3 > 2 * pool_size`. -/
theorem C4_claim_false :
    Pool.Reachable 1 ⟨0, 3⟩ ∧ ¬((0 : ℕ) + 3 ≤ 2 * 1) := by
  constructor
  · exact .acquire (.acquire (.acquire .init))
  · decide

/-- C4 amended: in every reachable pool state the **free** count is
bounded, `free_count ≤ 2 * pool_size` (release drops buffers beyond
that), but `in_use_count` — and hence the sum — is unbounded because
`acquire` synthesizes a fresh buffer whenever the free list is empty. -/
theorem C4_amended_thm (poolSize : ℕ) (s : Pool)
    (h : Pool.Reachable poolSize s) : s.free ≤ 2 * poolSize := by
  induction h with
  | init =>
    show poolSize ≤ 2 * poolSize
    omega
  | acquire _ ih =>
    unfold Pool.acquire
    split <;> simp <;> omega
  | release _ _ ih =>
    unfold Pool.release
    split
    · next hlt => simpa using hlt
    · simpa using ih
  | drop _ _ ih => simpa [Pool.drop] using ih

/-- Witness for `C4_amended_thm` at the freshly constructed pool. -/
theorem C4_amended_witness :
    Pool.Reachable 1 ⟨1, 0⟩ ∧ (Pool.mk 1 0).free ≤ 2 * 1 :=
  ⟨.init, C4_amended_thm 1 ⟨1, 0⟩ .init⟩

/-- C5 counterexample: when the selected JPEG backend is the OpenCV
fallback (which reports 0 bytes written), the compression-ratio update at
the end of `VRFrameEncoder::encode` divides by `encoded_size = 0`. -/
theorem C5_claim_false :
    (vrEncode opencvEncode cfgC1 ⟨0, 0, 0, 1⟩ 1920 1080 (1920 * 4) 4).2.ratio_den
      = 0 := by
  decide

/-- C5 amended: the compression-ratio denominator is the backend's
reported byte count, used unconditionally; it is zero exactly when the
backend reports zero bytes (an IEEE-754 `f64` division by zero yielding
infinity, not a trap), and nonzero otherwise. -/
theorem C5_amended_thm (backend : ℕ → ℕ → ℕ → ℕ → ℕ → ℕ)
    (cfg : EncoderConfig) (s : EncodeStats) (w h p ch : ℕ) :
    (vrEncode backend cfg s w h p ch).2.ratio_den =
      (vrEncode backend cfg s w h p ch).1 ∧
    ((vrEncode backend cfg s w h p ch).2.ratio_den = 0 ↔
      (let q := encodeCompressorInput cfg w h p ch;
       backend q.1 q.2.1 q.2.2.1 q.2.2.2 cfg.jpeg_quality) = 0) :=
  ⟨rfl, Iff.rfl⟩

/-- C6: in every reachable state of the SPSC ring of power-of-two
capacity `N = 2^k` (`N ≥ 2`), `try_push` returns false iff
`(tail + 1) mod N = head`, and `try_pop` pops nothing iff `tail = head`;
the `& MASK` wrap-around in the code is exactly `mod N`. -/
theorem C6_thm (k : ℕ) (hk : 1 ≤ k) (s : SPSC)
    (hs : SPSC.Reachable (2 ^ k) s) :
    ((s.tryPush (2 ^ k)).1 = false ↔ (s.tail + 1) % 2 ^ k = s.head) ∧
    ((s.tryPop (2 ^ k)).1 = false ↔ s.tail = s.head) := by
  constructor
  · by_cases h : (s.tail + 1) % 2 ^ k = s.head
    · simp [SPSC.tryPush, Nat.and_pow_two_sub_one_eq_mod, h]
    · simp [SPSC.tryPush, Nat.and_pow_two_sub_one_eq_mod, h]
  · by_cases h : s.head = s.tail
    · simp [SPSC.tryPop, h]
    · simp only [SPSC.tryPop, if_neg h]
      constructor
      · intro h'
        simp at h'
      · intro h'
        exact absurd h'.symm h

/-- Witness for `C6_thm` at `k = 1`, in the initial (empty) state. -/
theorem C6_thm_witness :
    (1 ≤ 1) ∧
    ((((⟨0, 0⟩ : SPSC).tryPush (2 ^ 1)).1 = false ↔ (0 + 1) % 2 ^ 1 = 0) ∧
     (((⟨0, 0⟩ : SPSC).tryPop (2 ^ 1)).1 = false ↔ (0 : ℕ) = 0)) :=
  ⟨le_refl 1, C6_thm 1 (le_refl 1) ⟨0, 0⟩ .init⟩

/-- C7 counterexample: with `max_clients = 1`, two connections accepted
while the registry is empty both pass the `client_count() < max_clients`
check; when both handshakes later complete, both register, and the
registry reaches 2 clients — the claimed invariant
"the registry size never exceeds max_clients" is false on the
asynchronous code. -/
theorem C7_claim_false :
    Server.Reachable 1 ⟨["a", "b"], []⟩ ∧
    ¬((["a", "b"] : List String).length ≤ 1) := by
  constructor
  · exact .done "a" (.done "b" (.accept "b" (.accept "a" .init)) (by decide))
      (by decide)
  · decide

/-- Inductive invariant of serialized executions: with no handshake in
flight the registry is within the limit, and while one connection is in
flight the registry is strictly below the limit (its accept-time check
passed and at most disconnects happened since). -/
theorem Server.serial_invariant (maxClients : ℕ) (s : ServerState)
    (h : Server.SerialReachable maxClients s) :
    (s.pending = [] → s.registry.length ≤ maxClients) ∧
    (s.pending ≠ [] → s.registry.length < maxClients ∧
      s.pending.length = 1) := by
  induction h with
  | init =>
    constructor
    · intro _
      simp
    · intro h
      exact absurd rfl h
  | accept id _ hp ih =>
    unfold acceptStep
    split
    · next hlt =>
      refine ⟨fun hpe => ?_, fun _ => ⟨hlt, ?_⟩⟩
      · simp at hpe
      · simp [hp]
    · exact ih
  | done id _ hmem ih =>
    have hne : _ ≠ ([] : List String) := List.ne_nil_of_mem hmem
    obtain ⟨hlt, hlen⟩ := ih.2 hne
    obtain ⟨a, ha⟩ := List.length_eq_one.1 hlen
    have hid : id = a := by
      rw [ha] at hmem
      exact List.mem_singleton.1 hmem
    subst hid
    constructor
    · intro _
      show (registerSession _ id).length ≤ maxClients
      unfold registerSession
      split
      · omega
      · simp
        omega
    · intro hne2
      exfalso
      apply hne2
      show List.erase _ id = []
      rw [ha, List.erase_cons_head]
  | fail id _ hmem ih =>
    have hne : _ ≠ ([] : List String) := List.ne_nil_of_mem hmem
    obtain ⟨hlt, hlen⟩ := ih.2 hne
    obtain ⟨a, ha⟩ := List.length_eq_one.1 hlen
    have hid : id = a := by
      rw [ha] at hmem
      exact List.mem_singleton.1 hmem
    subst hid
    constructor
    · intro _
      exact le_of_lt hlt
    · intro hne2
      exfalso
      apply hne2
      show List.erase _ id = []
      rw [ha, List.erase_cons_head]
  | unregister id _ ih =>
    have herase : ∀ l : List String, (l.erase id).length ≤ l.length :=
      fun l => List.Sublist.length_le (List.erase_sublist _ _)
    constructor
    · intro hpe
      exact le_trans (herase _) (ih.1 hpe)
    · intro hne2
      obtain ⟨hlt, hlen⟩ := ih.2 hne2
      exact ⟨lt_of_le_of_lt (herase _) hlt, hlen⟩

/-- C7 amended: an `on_accept` arriving when the registry already holds
`max_clients` clients closes the socket without a websocket handshake
and leaves registry and pending connections — hence every previously
registered client — unchanged; and under serialized connection attempts
(each handshake resolving before the next accept) the registry never
exceeds `max_clients`.  Overlapping attempts can exceed the limit
(`C7_claim_false`), because registration happens at handshake completion
with no re-check. -/
theorem C7_amended_thm (maxClients : ℕ) (s : ServerState) :
    (Server.Reachable maxClients s → s.registry.length = maxClients →
      ∀ id : String, acceptStep maxClients s id = (s, .rejected)) ∧
    (Server.SerialReachable maxClients s →
      s.registry.length ≤ maxClients) := by
  constructor
  · intro _ hfull id
    unfold acceptStep
    rw [if_neg (by omega)]
  · intro h
    by_cases hp : s.pending = []
    · exact (Server.serial_invariant maxClients s h).1 hp
    · exact le_of_lt ((Server.serial_invariant maxClients s h).2 hp).1

/-- Witness for `C7_amended_thm`: with `max_clients = 1` and one client
registered after a serialized attempt, the next accept is rejected
without handshake and the registry is within the limit. -/
theorem C7_amended_witness :
    (acceptStep 1 ⟨["a"], []⟩ "b" = (⟨["a"], []⟩, .rejected)) ∧
    (ServerState.mk ["a"] []).registry.length ≤ 1 :=
  ⟨(C7_amended_thm 1 ⟨["a"], []⟩).1
      (.done "a" (.accept "a" .init) (by decide)) rfl "b",
   (C7_amended_thm 1 ⟨["a"], []⟩).2
      (.done "a" (.accept "a" .init rfl) (by decide))⟩

/-- C9: for every output pixel in the right half (`Wo/2 ≤ x < Wo`, `Wo`
even as the encoder forces), `process_scaled` copies channel `c < 3` of
the input pixel at column
`min(floor((x - Wo/2) * (Wi / (Wo/2))) + sep, Wi - 1)` and row
`floor(y * (Hi / Ho))`, with `sep = floor(Wi * eye_separation)`. -/
theorem C9_thm (input : ℕ → ℕ) (Wi Hi pitch ch Wo Ho : ℕ) (es : ℚ)
    (x y c : ℕ) (hes0 : 0 ≤ es) (hes1 : es ≤ 1 / 10) (hWo : 2 ∣ Wo)
    (hx1 : Wo / 2 ≤ x) (hx2 : x < Wo) (hy : y < Ho) (hc : c < 3) :
    processScaledPixel input Wi Hi pitch ch Wo Ho es x y c =
      input (⌊(y : ℚ) * ((Hi : ℚ) / (Ho : ℚ))⌋₊ * pitch +
        min (⌊((x - Wo / 2 : ℕ) : ℚ) * ((Wi : ℚ) / ((Wo / 2 : ℕ) : ℚ))⌋₊ +
              ⌊(Wi : ℚ) * es⌋₊) (Wi - 1) * ch + c) := by
  unfold processScaledPixel rightSrcX
  rw [if_neg (by omega)]

/-- Witness for `C9_thm`: identity raster, `Wi = 4, Hi = 2, pitch = 16,
ch = 4, (Wo, Ho) = (4, 2), eye_separation = 0`, pixel `(2, 0)`,
channel 0. -/
theorem C9_thm_witness :
    ((0 : ℚ) ≤ 0 ∧ (0 : ℚ) ≤ 1 / 10 ∧ 2 ∣ 4 ∧ 4 / 2 ≤ 2 ∧ 2 < 4 ∧
      0 < 2 ∧ 0 < 3) ∧
    processScaledPixel (fun o => o) 4 2 16 4 4 2 0 2 0 0 =
      (fun o : ℕ => o) (⌊(0 : ℚ) * ((2 : ℚ) / (2 : ℚ))⌋₊ * 16 +
        min (⌊((2 - 4 / 2 : ℕ) : ℚ) * ((4 : ℚ) / ((4 / 2 : ℕ) : ℚ))⌋₊ +
              ⌊(4 : ℚ) * 0⌋₊) (4 - 1) * 4 + 0) :=
  ⟨⟨le_refl 0, by norm_num, by decide, by decide, by decide, by decide,
     by decide⟩,
   C9_thm (fun o => o) 4 2 16 4 4 2 0 2 0 0 (le_refl 0) (by norm_num)
     (by decide) (by decide) (by decide) (by decide) (by decide)⟩

/-- C10: `set_quality(u)` stores `clamp(u, 1, 100)` and `set_downscale(f)`
stores `clamp(f, 0.1, 1.0)` — equal to the `max`/`min` normal forms — and
neither path invokes the error callback. -/
theorem C10_thm (cfg : EncoderConfig) (q : ℕ) (f : ℚ) :
    (setQuality cfg q).1.jpeg_quality = cppClampNat q 1 100 ∧
    cppClampNat q 1 100 = max 1 (min q 100) ∧
    (setQuality cfg q).2 = false ∧
    (setDownscale f).1 = cppClampQ f (1 / 10) 1 ∧
    cppClampQ f (1 / 10) 1 = max (1 / 10) (min f 1) ∧
    (setDownscale f).2 = false := by
  refine ⟨rfl, ?_, rfl, rfl, ?_, rfl⟩
  · unfold cppClampNat
    rcases lt_or_le q 1 with h1 | h1
    · rw [if_pos h1]
      omega
    · rw [if_neg (by omega)]
      rcases lt_or_le 100 q with h2 | h2
      · rw [if_pos h2]
        omega
      · rw [if_neg (by omega)]
        omega
  · unfold cppClampQ
    rcases lt_or_le f (1 / 10) with h1 | h1
    · rw [if_pos h1]
      rw [min_eq_left (by linarith), max_eq_left (by linarith)]
    · rw [if_neg (by linarith)]
      rcases lt_or_le 1 f with h2 | h2
      · rw [if_pos h2]
        rw [min_eq_right (by linarith), max_eq_right (by linarith)]
      · rw [if_neg (by linarith)]
        rw [min_eq_left (by linarith), max_eq_right (by linarith)]

/-! ### Numeral and value-codec lemmas for the config round trip -/

/-- The fuel of `natToCharsAux` is irrelevant once it exceeds `n`. -/
theorem natToCharsAux_irrel (fuel : ℕ) : ∀ fuel' n, n < fuel → n < fuel' →
    natToCharsAux fuel n = natToCharsAux fuel' n := by
  induction fuel with
  | zero => intro fuel' n h _; omega
  | succ f ih =>
    intro fuel' n h h'
    cases fuel' with
    | zero => omega
    | succ f' =>
      simp only [natToCharsAux]
      by_cases h10 : n < 10
      · rw [if_pos h10, if_pos h10]
      · rw [if_neg h10, if_neg h10]
        have hd : n / 10 < n := Nat.div_lt_self (by omega) (by omega)
        rw [ih f' (n / 10) (by omega) (by omega)]

/-- Unfolding equation of `natToChars` without the fuel. -/
theorem natToChars_eq (n : ℕ) : natToChars n =
    if n < 10 then [Char.ofNat (48 + n)]
    else natToChars (n / 10) ++ [Char.ofNat (48 + n % 10)] := by
  show natToCharsAux (n + 1) n = _
  simp only [natToCharsAux]
  by_cases h10 : n < 10
  · rw [if_pos h10, if_pos h10]
  · rw [if_neg h10, if_neg h10]
    have hd : n / 10 < n := Nat.div_lt_self (by omega) (by omega)
    rw [natToCharsAux_irrel n (n / 10 + 1) (n / 10) (by omega) (by omega)]
    rfl

theorem digitChar_isDigit {d : ℕ} (h : d < 10) :
    (Char.ofNat (48 + d)).isDigit = true := by
  interval_cases d <;> decide

theorem digitChar_toNat {d : ℕ} (h : d < 10) :
    (Char.ofNat (48 + d)).toNat = 48 + d := by
  interval_cases d <;> decide

/-- A decimal digit is none of the characters the parser treats
specially. -/
theorem isDigit_ne {c : Char} (h : c.isDigit = true) :
    c ≠ ' ' ∧ c ≠ '"' ∧ c ≠ '\r' ∧ c ≠ ':' ∧ c ≠ '-' ∧ c ≠ '#' := by
  refine ⟨?_, ?_, ?_, ?_, ?_, ?_⟩ <;> (rintro rfl; exact absurd h (by decide))

theorem mem_natToChars_isDigit (n : ℕ) :
    ∀ c ∈ natToChars n, c.isDigit = true := by
  induction n using Nat.strong_induction_on with
  | _ n ih =>
    rw [natToChars_eq]
    by_cases h10 : n < 10
    · rw [if_pos h10]
      intro c hc
      simp only [List.mem_singleton] at hc
      subst hc
      exact digitChar_isDigit h10
    · rw [if_neg h10]
      intro c hc
      rcases List.mem_append.1 hc with h | h
      · exact ih (n / 10) (Nat.div_lt_self (by omega) (by omega)) c h
      · simp only [List.mem_singleton] at h
        subst h
        exact digitChar_isDigit (Nat.mod_lt _ (by omega))

theorem natToChars_ne_nil (n : ℕ) : natToChars n ≠ [] := by
  rw [natToChars_eq]
  by_cases h10 : n < 10
  · rw [if_pos h10]; simp
  · rw [if_neg h10]; simp

theorem readDigits_append (s t : Str) (acc : ℕ)
    (hs : ∀ c ∈ s, c.isDigit = true) :
    readDigits (s ++ t) acc = readDigits t (readDigits s acc) := by
  induction s generalizing acc with
  | nil => rfl
  | cons c cs ih =>
    have hc := hs c (by simp)
    simp only [List.cons_append, readDigits]
    rw [if_pos hc, if_pos hc]
    exact ih _ (fun c' h' => hs c' (by simp [h']))

theorem readDigits_natToChars (n : ℕ) : ∀ acc,
    readDigits (natToChars n) acc = acc * 10 ^ (natToChars n).length + n := by
  induction n using Nat.strong_induction_on with
  | _ n ih =>
    intro acc
    rw [natToChars_eq]
    by_cases h10 : n < 10
    · rw [if_pos h10]
      simp only [readDigits, digitChar_isDigit h10, if_true,
        digitChar_toNat h10, List.length_singleton, pow_one]
      omega
    · rw [if_neg h10]
      have hlt : n / 10 < n := Nat.div_lt_self (by omega) (by omega)
      rw [readDigits_append _ _ _ (mem_natToChars_isDigit (n / 10))]
      rw [ih (n / 10) hlt acc]
      have hm : n % 10 < 10 := Nat.mod_lt _ (by omega)
      simp only [readDigits, digitChar_isDigit hm, if_true, digitChar_toNat hm,
        List.length_append, List.length_singleton, pow_succ]
      have hdm : 10 * (n / 10) + n % 10 = n := Nat.div_add_mod n 10
      have h48 : 48 + n % 10 - 48 = n % 10 := by omega
      rw [h48]
      ring_nf
      omega

theorem stoiNat_natToChars (n : ℕ) : stoiNat (natToChars n) = n := by
  unfold stoiNat
  rw [readDigits_natToChars]
  simp

theorem natToChars_length_le {k : ℕ} (hk : 1 ≤ k) :
    ∀ {n : ℕ}, n < 10 ^ k → (natToChars n).length ≤ k := by
  induction k with
  | zero => omega
  | succ k ih =>
    intro n h
    rw [natToChars_eq]
    by_cases h10 : n < 10
    · rw [if_pos h10]
      simp
    · rw [if_neg h10]
      rw [List.length_append, List.length_singleton]
      have hk1 : 1 ≤ k := by
        by_contra hk0
        have hk2 : k = 0 := by omega
        subst hk2
        rw [pow_one] at h
        omega
      have hdiv : n / 10 < 10 ^ k := by
        rw [Nat.div_lt_iff_lt_mul (by omega)]
        rw [pow_succ] at h
        omega
      have := ih hk1 hdiv
      omega

theorem readDigits_replicate_zero (j : ℕ) : ∀ acc,
    readDigits (List.replicate j '0') acc = acc * 10 ^ j := by
  induction j with
  | zero => intro acc; simp [readDigits]
  | succ j ih =>
    intro acc
    rw [List.replicate_succ]
    simp only [readDigits]
    rw [if_pos (by decide)]
    rw [ih]
    have h0 : '0'.toNat - 48 = 0 := by decide
    rw [h0, pow_succ]
    ring

theorem mem_padNat_isDigit (k n : ℕ) : ∀ c ∈ padNat k n, c.isDigit = true := by
  intro c hc
  rcases List.mem_append.1 hc with h | h
  · rw [List.eq_of_mem_replicate h]
    decide
  · exact mem_natToChars_isDigit n c h

theorem padNat_length {k n : ℕ} (hk : 1 ≤ k) (h : n < 10 ^ k) :
    (padNat k n).length = k := by
  unfold padNat
  rw [List.length_append, List.length_replicate]
  have := natToChars_length_le hk h
  omega

theorem readDigits_padNat (k n : ℕ) : readDigits (padNat k n) 0 = n := by
  unfold padNat
  rw [readDigits_append _ _ _
    (fun c hc => by rw [List.eq_of_mem_replicate hc]; decide)]
  rw [readDigits_replicate_zero]
  rw [readDigits_natToChars]
  simp

theorem stofDec_decToChars (d : Dec) : stofDec (decToChars d) = d := by
  obtain ⟨m, e⟩ := d
  by_cases he : e = 0
  · subst he
    show stofDec (if 0 = 0 then natToChars m else _) = _
    rw [if_pos rfl]
    have ht : (natToChars m).takeWhile (·.isDigit) = natToChars m :=
      List.takeWhile_eq_self_iff.mpr (fun c hc => mem_natToChars_isDigit m c hc)
    have hd : (natToChars m).dropWhile (·.isDigit) = [] :=
      List.dropWhile_eq_nil_iff.mpr (fun c hc => mem_natToChars_isDigit m c hc)
    simp only [stofDec, ht, hd]
    rw [readDigits_natToChars]
    simp
  · show stofDec (if e = 0 then _ else
      natToChars (m / 10 ^ e) ++ '.' :: padNat e (m % 10 ^ e)) = _
    rw [if_neg he]
    have hall : ∀ c ∈ natToChars (m / 10 ^ e), (·.isDigit) c = true :=
      mem_natToChars_isDigit (m / 10 ^ e)
    have hdot : ('.' :: padNat e (m % 10 ^ e)).takeWhile (·.isDigit) = [] := by
      rw [List.takeWhile_cons]
      rw [if_neg (by decide)]
    have hdot2 : ('.' :: padNat e (m % 10 ^ e)).dropWhile (·.isDigit) =
        '.' :: padNat e (m % 10 ^ e) := by
      rw [List.dropWhile_cons]
      rw [if_neg (by decide)]
    have hfp : (padNat e (m % 10 ^ e)).takeWhile (·.isDigit) =
        padNat e (m % 10 ^ e) :=
      List.takeWhile_eq_self_iff.mpr (fun c hc => mem_padNat_isDigit e _ c hc)
    have hmod : m % 10 ^ e < 10 ^ e := Nat.mod_lt _ (Nat.pos_pow_of_pos e (by omega))
    have hlen : (padNat e (m % 10 ^ e)).length = e :=
      padNat_length (by omega) hmod
    simp only [stofDec, List.takeWhile_append_of_pos hall,
      List.dropWhile_append_of_pos hall, hdot, hdot2, List.append_nil, hfp, hlen]
    rw [readDigits_natToChars, readDigits_padNat]
    simp only [Nat.zero_mul, Nat.zero_add]
    have hdm : 10 ^ e * (m / 10 ^ e) + m % 10 ^ e = m := Nat.div_add_mod m (10 ^ e)
    congr 1
    rw [Nat.mul_comm (m / 10 ^ e) (10 ^ e)]
    exact hdm

theorem stoiInt_intToChars (z : ℤ) : stoiInt (intToChars z) = z := by
  unfold intToChars
  by_cases hz : z < 0
  · rw [if_pos hz]
    unfold stoiInt
    simp only [List.headD_cons, List.tail_cons, if_pos]
    have h1 := stoiNat_natToChars z.natAbs
    unfold stoiNat at h1
    rw [h1]
    omega
  · rw [if_neg hz]
    unfold stoiInt
    have hne := natToChars_ne_nil z.toNat
    obtain ⟨c, cs, hcons⟩ := List.exists_cons_of_ne_nil hne
    have hcd : c.isDigit = true := by
      apply mem_natToChars_isDigit z.toNat
      rw [hcons]
      exact List.mem_cons_self _ _
    rw [hcons, List.headD_cons]
    rw [if_neg (isDigit_ne hcd).2.2.2.2.1]
    rw [← hcons]
    have h1 := stoiNat_natToChars z.toNat
    unfold stoiNat at h1
    rw [h1]
    omega

theorem parseBool_boolChars (b : Bool) : parseBool (boolChars b) = b := by
  cases b <;> decide

/-! ### Parser lemmas -/

theorem plainChar_ne {c : Char} (h : plainChar c) :
    c ≠ ' ' ∧ c ≠ '"' ∧ c ≠ '\r' ∧ c ≠ ':' ∧ c ≠ '#' := by
  refine ⟨?_, ?_, ?_, ?_, ?_⟩ <;>
    (rintro rfl; rcases h with h | h | h | h <;> exact absurd h (by decide))

theorem afterColon_append (s t : Str) (h : ':' ∉ s) :
    afterColon (s ++ ':' :: t) = some t := by
  induction s with
  | nil => simp [afterColon]
  | cons c cs ih =>
    simp only [List.cons_append, afterColon]
    rw [if_neg (by intro hc; subst hc; exact h (List.mem_cons_self _ _))]
    exact ih fun hc => h (List.mem_cons_of_mem _ hc)

theorem trimFrontVal_cons_space (v : Str) :
    trimFrontVal (' ' :: v) = trimFrontVal v := by
  simp [trimFrontVal]

theorem trimFrontVal_cons_quote (v : Str) :
    trimFrontVal ('"' :: v) = trimFrontVal v := by
  simp [trimFrontVal]

theorem trimFrontVal_keep (c : Char) (cs : Str) (h : ¬(c = ' ' ∨ c = '"')) :
    trimFrontVal (c :: cs) = c :: cs := by
  simp only [trimFrontVal]
  rw [if_neg h]

theorem trimBackAux_cons_quote (v : Str) :
    trimBackAux ('"' :: v) = trimBackAux v := by
  simp [trimBackAux]

theorem trimBackAux_keep (c : Char) (cs : Str)
    (h : ¬(c = ' ' ∨ c = '"' ∨ c = '\r')) : trimBackAux (c :: cs) = c :: cs := by
  simp only [trimBackAux]
  rw [if_neg h]

theorem afterColon_kvLine (key tail : Str) (hk : ':' ∉ key) :
    afterColon (kvLine key tail) = some (' ' :: tail) := by
  unfold kvLine
  rw [show afterColon (' ' :: ' ' :: (key ++ ':' :: ' ' :: tail)) =
      afterColon (key ++ ':' :: ' ' :: tail) by
    simp only [afterColon]
    rw [if_neg (by decide), if_neg (by decide)]]
  exact afterColon_append key (' ' :: tail) hk

/-- `parse_value` on a saved key/value line returns the rendered value
verbatim, provided no character of the value is one the trims touch. -/
theorem parseValue_kvLine (key val : Str) (hk : ':' ∉ key)
    (hv : ∀ c ∈ val, ¬(c = ' ' ∨ c = '"' ∨ c = '\r')) :
    parseValue (kvLine key val) = val := by
  unfold parseValue
  rw [afterColon_kvLine key val hk]
  dsimp only
  rw [trimFrontVal_cons_space]
  have h1 : trimFrontVal val = val := by
    cases val with
    | nil => rfl
    | cons c cs =>
      refine trimFrontVal_keep c cs ?_
      intro h
      exact hv c (List.mem_cons_self _ _) (Or.imp id Or.inl h)
  rw [h1]
  have h2 : trimBackAux val.reverse = val.reverse := by
    cases hrev : val.reverse with
    | nil => rfl
    | cons d ds =>
      refine trimBackAux_keep d ds ?_
      have hd : d ∈ val := by
        rw [← List.mem_reverse, hrev]
        exact List.mem_cons_self _ _
      exact hv d hd
  rw [h2]
  exact List.reverse_reverse val

/-- `parse_value` on a quoted string line (`host`, `static_ip`) strips
the quotes and returns the enclosed plain string. -/
theorem parseValue_kvLine_quoted (key s : Str) (hk : ':' ∉ key)
    (hs : ∀ c ∈ s, plainChar c) :
    parseValue (kvLine key ('"' :: s ++ ['"'])) = s := by
  unfold parseValue
  rw [afterColon_kvLine key _ hk]
  dsimp only
  simp only [List.cons_append]
  rw [trimFrontVal_cons_space, trimFrontVal_cons_quote]
  cases s with
  | nil => rfl
  | cons c s' =>
    have hc := plainChar_ne (hs c (List.mem_cons_self _ _))
    simp only [List.cons_append]
    rw [trimFrontVal_keep c (s' ++ ['"'])
      (by rintro (h | h); exacts [hc.1 h, hc.2.1 h])]
    rw [show (c :: (s' ++ ['"']) : Str) = (c :: s') ++ ['"'] by
      simp [List.cons_append]]
    rw [List.reverse_append]
    simp only [List.reverse_singleton, List.singleton_append]
    rw [trimBackAux_cons_quote]
    have h2 : trimBackAux (c :: s').reverse = (c :: s').reverse := by
      cases hrev : (c :: s').reverse with
      | nil => rfl
      | cons d ds =>
        refine trimBackAux_keep d ds ?_
        have hd : d ∈ c :: s' := by
          rw [← List.mem_reverse, hrev]
          exact List.mem_cons_self _ _
        have hdp := plainChar_ne (hs d hd)
        rintro (h | h | h)
        exacts [hdp.1 h, hdp.2.1 h, hdp.2.2.1 h]
    rw [h2]
    exact List.reverse_reverse _

/-! ### Key dispatch: evaluating `line.find("<key>:") != npos` on saved
lines.  On a line whose only colon is the key/value separator, a pattern
ending in `':'` occurs iff it is a suffix of the line's prefix up to that
colon, which is decidable once the keys are concrete. -/

theorem mem_of_containsSub (pat : Str) : ∀ s, containsSub pat s = true →
    ∀ c ∈ pat, c ∈ s := by
  intro s
  induction s with
  | nil =>
    intro h c hc
    simp only [containsSub, List.isEmpty_iff] at h
    subst h
    simp at hc
  | cons a rest ih =>
    intro h c hc
    simp only [containsSub, Bool.or_eq_true] at h
    rcases h with h | h
    · exact (List.isPrefixOf_iff_prefix.1 h).subset hc
    · exact List.mem_cons_of_mem _ (ih h c hc)

theorem prefix_colon_iff (p : Str) : ∀ a b : Str, ':' ∉ p → ':' ∉ a →
    ((p ++ [':']) <+: (a ++ ':' :: b) ↔ p = a) := by
  induction p with
  | nil =>
    intro a b _ ha
    cases a with
    | nil => simp
    | cons x a' =>
      simp only [List.nil_append, List.cons_append]
      constructor
      · intro h
        obtain ⟨h1, -⟩ := List.cons_prefix_cons.1 h
        exact absurd h1.symm fun hx => ha (hx ▸ List.mem_cons_self _ _)
      · intro h
        cases h
  | cons c p' ih =>
    intro a b hp ha
    cases a with
    | nil =>
      constructor
      · intro h
        obtain ⟨h1, -⟩ := List.cons_prefix_cons.1 (by simpa using h)
        exact absurd h1 fun hc => hp (hc ▸ List.mem_cons_self _ _)
      · intro h
        cases h
    | cons x a' =>
      simp only [List.cons_append, List.cons_prefix_cons]
      rw [ih a' b (fun h => hp (List.mem_cons_of_mem _ h))
        (fun h => ha (List.mem_cons_of_mem _ h))]
      simp

theorem containsSub_colon_iff (p b : Str) (hp : ':' ∉ p) (hb : ':' ∉ b) :
    ∀ a : Str, ':' ∉ a →
    (containsSub (p ++ [':']) (a ++ ':' :: b) = true ↔
      (p ++ [':']) <:+ (a ++ [':'])) := by
  intro a
  induction a with
  | nil =>
    intro _
    have hnb : containsSub (p ++ [':']) b = false := by
      cases hq : containsSub (p ++ [':']) b
      · rfl
      · exact absurd (mem_of_containsSub _ _ hq ':' (by simp)) hb
    simp only [List.nil_append, containsSub, hnb, Bool.or_false]
    rw [List.isPrefixOf_iff_prefix]
    rw [show (':' :: b : Str) = [] ++ ':' :: b from rfl,
      prefix_colon_iff p [] b hp (by simp)]
    constructor
    · rintro rfl
      simp
    · intro h
      rcases List.suffix_cons_iff.1 h with h | h
      · have h' : p ++ [':'] = [] ++ [':'] := by simpa using h
        exact List.append_cancel_right h'
      · simp at h
  | cons x a' ih =>
    intro ha
    have ha' : ':' ∉ a' := fun h => ha (List.mem_cons_of_mem _ h)
    have hx : x ≠ ':' := fun h => ha (h ▸ List.mem_cons_self _ _)
    simp only [List.cons_append, containsSub, Bool.or_eq_true, List.append_eq]
    rw [List.isPrefixOf_iff_prefix]
    rw [show (x :: (a' ++ ':' :: b) : Str) = (x :: a') ++ ':' :: b from rfl,
      prefix_colon_iff p (x :: a') b hp ha]
    rw [ih ha']
    rw [List.suffix_cons_iff]
    constructor
    · rintro (h | h)
      · left
        subst h
        simp
      · right
        exact h
    · rintro (h | h)
      · left
        have : p ++ [':'] = (x :: a') ++ [':'] := by simpa using h
        exact List.append_cancel_right this
      · right
        exact h

/-- `line.find("<pat>:") != npos` succeeds on a saved line. -/
theorem cskv_pos (pat keyPat key val : Str) (hpat : pat = keyPat ++ [':'])
    (hkp : ':' ∉ keyPat) (hk : ':' ∉ key) (hv : ':' ∉ val)
    (hs : (keyPat ++ [':']) <:+ ((' ' :: ' ' :: key) ++ [':'])) :
    containsSub pat (kvLine key val) = true := by
  subst hpat
  have hline : kvLine key val = (' ' :: ' ' :: key) ++ ':' :: (' ' :: val) := by
    simp [kvLine]
  rw [hline]
  have hb : ':' ∉ ' ' :: val := by
    intro h
    rcases List.mem_cons.1 h with h | h
    · exact absurd h (by decide)
    · exact hv h
  have ha : ':' ∉ ' ' :: ' ' :: key := by
    intro h
    rcases List.mem_cons.1 h with h | h
    · exact absurd h (by decide)
    · rcases List.mem_cons.1 h with h | h
      · exact absurd h (by decide)
      · exact hk h
  exact (containsSub_colon_iff keyPat (' ' :: val) hkp hb _ ha).2 hs

/-- `line.find("<pat>:") != npos` fails on a saved line for a
non-matching key. -/
theorem cskv_neg (pat keyPat key val : Str) (hpat : pat = keyPat ++ [':'])
    (hkp : ':' ∉ keyPat) (hk : ':' ∉ key) (hv : ':' ∉ val)
    (hs : ¬((keyPat ++ [':']) <:+ ((' ' :: ' ' :: key) ++ [':']))) :
    ¬(containsSub pat (kvLine key val) = true) := by
  subst hpat
  have hline : kvLine key val = (' ' :: ' ' :: key) ++ ':' :: (' ' :: val) := by
    simp [kvLine]
  rw [hline]
  have hb : ':' ∉ ' ' :: val := by
    intro h
    rcases List.mem_cons.1 h with h | h
    · exact absurd h (by decide)
    · exact hv h
  have ha : ':' ∉ ' ' :: ' ' :: key := by
    intro h
    rcases List.mem_cons.1 h with h | h
    · exact absurd h (by decide)
    · rcases List.mem_cons.1 h with h | h
      · exact absurd h (by decide)
      · exact hk h
  intro hc
  exact hs ((containsSub_colon_iff keyPat (' ' :: val) hkp hb _ ha).1 hc)

/-! ### Evaluating the load loop on saved lines -/

theorem loadStep_nil (p : Config × Str) : loadStep p [] = p := rfl

theorem loadStep_comment (p : Config × Str) :
    loadStep p ("# VR Streamer Configuration".toList) = p := rfl

theorem loadStep_sect_capture (p : Config × Str) :
    loadStep p ("capture:".toList) = (p.1, "capture".toList) := rfl

theorem loadStep_sect_encoder (p : Config × Str) :
    loadStep p ("encoder:".toList) = (p.1, "encoder".toList) := rfl

theorem loadStep_sect_network (p : Config × Str) :
    loadStep p ("network:".toList) = (p.1, "network".toList) := rfl

/-- A saved key/value line is neither empty, a comment, nor a section
header, so the loop parses its value and dispatches on the section. -/
theorem loadStep_kv (cfg : Config) (sect key val : Str)
    (hne : parseValue (kvLine key val) ≠ []) :
    loadStep (cfg, sect) (kvLine key val) =
      (if sect = "capture".toList then
        captureDispatch cfg (kvLine key val) (parseValue (kvLine key val))
      else if sect = "encoder".toList then
        encoderDispatch cfg (kvLine key val) (parseValue (kvLine key val))
      else if sect = "network".toList then
        networkDispatch cfg (kvLine key val) (parseValue (kvLine key val))
      else cfg, sect) := by
  unfold loadStep
  rw [if_neg (show ¬(kvLine key val = []) by simp [kvLine])]
  have hh : (kvLine key val).headD ' ' = ' ' := rfl
  rw [hh]
  rw [if_neg (by decide)]
  rw [if_neg (by
    rintro ⟨h1, -⟩
    exact h1 rfl)]
  dsimp only
  rw [if_neg hne]
  split
  · rfl
  · split
    · rfl
    · split
      · rfl
      · rfl

theorem LS_capture_line (cfg : Config) (key val pv : Str)
    (hpv : parseValue (kvLine key val) = pv) (hne : pv ≠ []) :
    loadStep (cfg, "capture".toList) (kvLine key val) =
      (captureDispatch cfg (kvLine key val) pv, "capture".toList) := by
  rw [loadStep_kv cfg _ _ _ (by rw [hpv]; exact hne)]
  rw [if_pos rfl, hpv]

theorem LS_encoder_line (cfg : Config) (key val pv : Str)
    (hpv : parseValue (kvLine key val) = pv) (hne : pv ≠ []) :
    loadStep (cfg, "encoder".toList) (kvLine key val) =
      (encoderDispatch cfg (kvLine key val) pv, "encoder".toList) := by
  rw [loadStep_kv cfg _ _ _ (by rw [hpv]; exact hne)]
  rw [if_neg (by decide), if_pos rfl, hpv]

theorem LS_network_line (cfg : Config) (key val pv : Str)
    (hpv : parseValue (kvLine key val) = pv) (hne : pv ≠ []) :
    loadStep (cfg, "network".toList) (kvLine key val) =
      (networkDispatch cfg (kvLine key val) pv, "network".toList) := by
  rw [loadStep_kv cfg _ _ _ (by rw [hpv]; exact hne)]
  rw [if_neg (by decide), if_neg (by decide), if_pos rfl, hpv]

/-- The rendered characters of a numeric / signed / decimal value are
digits, `'-'` or `'.'`; such a value passes the trims untouched and
contains no colon. -/
theorem val_conditions (v : Str)
    (h : ∀ c ∈ v, c.isDigit = true ∨ c = '-' ∨ c = '.') :
    (∀ c ∈ v, ¬(c = ' ' ∨ c = '"' ∨ c = '\r')) ∧ ':' ∉ v := by
  constructor
  · intro c hc
    rcases h c hc with hd | rfl | rfl
    · have hn := isDigit_ne hd
      rintro (h' | h' | h')
      exacts [hn.1 h', hn.2.1 h', hn.2.2.1 h']
    · rintro (h' | h' | h') <;> exact absurd h' (by decide)
    · rintro (h' | h' | h') <;> exact absurd h' (by decide)
  · intro hc
    rcases h ':' hc with hd | h' | h'
    · exact absurd hd (by decide)
    · exact absurd h' (by decide)
    · exact absurd h' (by decide)

theorem mem_natToChars_class (n : ℕ) :
    ∀ c ∈ natToChars n, c.isDigit = true ∨ c = '-' ∨ c = '.' :=
  fun c hc => Or.inl (mem_natToChars_isDigit n c hc)

theorem mem_intToChars_class (z : ℤ) :
    ∀ c ∈ intToChars z, c.isDigit = true ∨ c = '-' ∨ c = '.' := by
  intro c hc
  unfold intToChars at hc
  split at hc
  · rcases List.mem_cons.1 hc with h | h
    · exact Or.inr (Or.inl h)
    · exact Or.inl (mem_natToChars_isDigit _ c h)
  · exact Or.inl (mem_natToChars_isDigit _ c hc)

theorem mem_decToChars_class (d : Dec) :
    ∀ c ∈ decToChars d, c.isDigit = true ∨ c = '-' ∨ c = '.' := by
  intro c hc
  unfold decToChars at hc
  split at hc
  · exact Or.inl (mem_natToChars_isDigit _ c hc)
  · rcases List.mem_append.1 hc with h | h
    · exact Or.inl (mem_natToChars_isDigit _ c h)
    · rcases List.mem_cons.1 h with h | h
      · exact Or.inr (Or.inr h)
      · exact Or.inl (mem_padNat_isDigit _ _ c h)

theorem decToChars_ne_nil (d : Dec) : decToChars d ≠ [] := by
  unfold decToChars
  split
  · exact natToChars_ne_nil _
  · simp [natToChars_ne_nil]

theorem intToChars_ne_nil (z : ℤ) : intToChars z ≠ [] := by
  unfold intToChars
  split
  · simp
  · exact natToChars_ne_nil _

/-! ### Per-key dispatch and per-line load lemmas -/

theorem CD_cap_target_fps (cfg : Config) (val pv : Str) (hvc : ':' ∉ val) :
    captureDispatch cfg (kvLine "target_fps".toList val) pv =
      { cfg with capture.target_fps := stoiNat pv } := by
  unfold captureDispatch
  rw [if_pos (cskv_pos "target_fps:".toList "target_fps".toList "target_fps".toList val (by decide) (by decide) (by decide) hvc (by decide))]

theorem CD_cap_monitor_index (cfg : Config) (val pv : Str) (hvc : ':' ∉ val) :
    captureDispatch cfg (kvLine "monitor_index".toList val) pv =
      { cfg with capture.monitor_index := stoiNat pv } := by
  unfold captureDispatch
  rw [if_neg (cskv_neg "target_fps:".toList "target_fps".toList "monitor_index".toList val (by decide) (by decide) (by decide) hvc (by decide))]
  rw [if_pos (cskv_pos "monitor_index:".toList "monitor_index".toList "monitor_index".toList val (by decide) (by decide) (by decide) hvc (by decide))]

theorem CD_cap_frame_buffer_count (cfg : Config) (val pv : Str) (hvc : ':' ∉ val) :
    captureDispatch cfg (kvLine "frame_buffer_count".toList val) pv =
      { cfg with capture.frame_buffer_count := stoiNat pv } := by
  unfold captureDispatch
  rw [if_neg (cskv_neg "target_fps:".toList "target_fps".toList "frame_buffer_count".toList val (by decide) (by decide) (by decide) hvc (by decide))]
  rw [if_neg (cskv_neg "monitor_index:".toList "monitor_index".toList "frame_buffer_count".toList val (by decide) (by decide) (by decide) hvc (by decide))]
  rw [if_neg (cskv_neg "capture_cursor:".toList "capture_cursor".toList "frame_buffer_count".toList val (by decide) (by decide) (by decide) hvc (by decide))]
  rw [if_neg (cskv_neg "use_gpu_capture:".toList "use_gpu_capture".toList "frame_buffer_count".toList val (by decide) (by decide) (by decide) hvc (by decide))]
  rw [if_pos (cskv_pos "frame_buffer_count:".toList "frame_buffer_count".toList "frame_buffer_count".toList val (by decide) (by decide) (by decide) hvc (by decide))]

theorem CD_enc_jpeg_quality (cfg : Config) (val pv : Str) (hvc : ':' ∉ val) :
    encoderDispatch cfg (kvLine "jpeg_quality".toList val) pv =
      { cfg with encoder.jpeg_quality := stoiNat pv } := by
  unfold encoderDispatch
  rw [if_pos (cskv_pos "jpeg_quality:".toList "jpeg_quality".toList "jpeg_quality".toList val (by decide) (by decide) (by decide) hvc (by decide))]

theorem CD_enc_downscale_factor (cfg : Config) (val pv : Str) (hvc : ':' ∉ val) :
    encoderDispatch cfg (kvLine "downscale_factor".toList val) pv =
      { cfg with encoder.downscale_factor := stofDec pv } := by
  unfold encoderDispatch
  rw [if_neg (cskv_neg "jpeg_quality:".toList "jpeg_quality".toList "downscale_factor".toList val (by decide) (by decide) (by decide) hvc (by decide))]
  rw [if_pos (cskv_pos "downscale_factor:".toList "downscale_factor".toList "downscale_factor".toList val (by decide) (by decide) (by decide) hvc (by decide))]

theorem CD_enc_output_width (cfg : Config) (val pv : Str) (hvc : ':' ∉ val) :
    encoderDispatch cfg (kvLine "output_width".toList val) pv =
      { cfg with encoder.output_width := stoiNat pv } := by
  unfold encoderDispatch
  rw [if_neg (cskv_neg "jpeg_quality:".toList "jpeg_quality".toList "output_width".toList val (by decide) (by decide) (by decide) hvc (by decide))]
  rw [if_neg (cskv_neg "downscale_factor:".toList "downscale_factor".toList "output_width".toList val (by decide) (by decide) (by decide) hvc (by decide))]
  rw [if_pos (cskv_pos "output_width:".toList "output_width".toList "output_width".toList val (by decide) (by decide) (by decide) hvc (by decide))]

theorem CD_enc_output_height (cfg : Config) (val pv : Str) (hvc : ':' ∉ val) :
    encoderDispatch cfg (kvLine "output_height".toList val) pv =
      { cfg with encoder.output_height := stoiNat pv } := by
  unfold encoderDispatch
  rw [if_neg (cskv_neg "jpeg_quality:".toList "jpeg_quality".toList "output_height".toList val (by decide) (by decide) (by decide) hvc (by decide))]
  rw [if_neg (cskv_neg "downscale_factor:".toList "downscale_factor".toList "output_height".toList val (by decide) (by decide) (by decide) hvc (by decide))]
  rw [if_neg (cskv_neg "output_width:".toList "output_width".toList "output_height".toList val (by decide) (by decide) (by decide) hvc (by decide))]
  rw [if_pos (cskv_pos "output_height:".toList "output_height".toList "output_height".toList val (by decide) (by decide) (by decide) hvc (by decide))]

theorem CD_enc_eye_separation (cfg : Config) (val pv : Str) (hvc : ':' ∉ val) :
    encoderDispatch cfg (kvLine "eye_separation".toList val) pv =
      { cfg with encoder.eye_separation := stofDec pv } := by
  unfold encoderDispatch
  rw [if_neg (cskv_neg "jpeg_quality:".toList "jpeg_quality".toList "eye_separation".toList val (by decide) (by decide) (by decide) hvc (by decide))]
  rw [if_neg (cskv_neg "downscale_factor:".toList "downscale_factor".toList "eye_separation".toList val (by decide) (by decide) (by decide) hvc (by decide))]
  rw [if_neg (cskv_neg "output_width:".toList "output_width".toList "eye_separation".toList val (by decide) (by decide) (by decide) hvc (by decide))]
  rw [if_neg (cskv_neg "output_height:".toList "output_height".toList "eye_separation".toList val (by decide) (by decide) (by decide) hvc (by decide))]
  rw [if_neg (cskv_neg "compression_method:".toList "compression_method".toList "eye_separation".toList val (by decide) (by decide) (by decide) hvc (by decide))]
  rw [if_neg (cskv_neg "vr_enabled:".toList "vr_enabled".toList "eye_separation".toList val (by decide) (by decide) (by decide) hvc (by decide))]
  rw [if_pos (cskv_pos "eye_separation:".toList "eye_separation".toList "eye_separation".toList val (by decide) (by decide) (by decide) hvc (by decide))]

theorem CD_enc_gpu_device_id (cfg : Config) (val pv : Str) (hvc : ':' ∉ val) :
    encoderDispatch cfg (kvLine "gpu_device_id".toList val) pv =
      { cfg with encoder.gpu_device_id := stoiInt pv } := by
  unfold encoderDispatch
  rw [if_neg (cskv_neg "jpeg_quality:".toList "jpeg_quality".toList "gpu_device_id".toList val (by decide) (by decide) (by decide) hvc (by decide))]
  rw [if_neg (cskv_neg "downscale_factor:".toList "downscale_factor".toList "gpu_device_id".toList val (by decide) (by decide) (by decide) hvc (by decide))]
  rw [if_neg (cskv_neg "output_width:".toList "output_width".toList "gpu_device_id".toList val (by decide) (by decide) (by decide) hvc (by decide))]
  rw [if_neg (cskv_neg "output_height:".toList "output_height".toList "gpu_device_id".toList val (by decide) (by decide) (by decide) hvc (by decide))]
  rw [if_neg (cskv_neg "compression_method:".toList "compression_method".toList "gpu_device_id".toList val (by decide) (by decide) (by decide) hvc (by decide))]
  rw [if_neg (cskv_neg "vr_enabled:".toList "vr_enabled".toList "gpu_device_id".toList val (by decide) (by decide) (by decide) hvc (by decide))]
  rw [if_neg (cskv_neg "eye_separation:".toList "eye_separation".toList "gpu_device_id".toList val (by decide) (by decide) (by decide) hvc (by decide))]
  rw [if_neg (cskv_neg "use_gpu:".toList "use_gpu".toList "gpu_device_id".toList val (by decide) (by decide) (by decide) hvc (by decide))]
  rw [if_pos (cskv_pos "gpu_device_id:".toList "gpu_device_id".toList "gpu_device_id".toList val (by decide) (by decide) (by decide) hvc (by decide))]

theorem CD_enc_h264_bitrate (cfg : Config) (val pv : Str) (hvc : ':' ∉ val) :
    encoderDispatch cfg (kvLine "h264_bitrate".toList val) pv =
      { cfg with encoder.h264_bitrate := stoiNat pv } := by
  unfold encoderDispatch
  rw [if_neg (cskv_neg "jpeg_quality:".toList "jpeg_quality".toList "h264_bitrate".toList val (by decide) (by decide) (by decide) hvc (by decide))]
  rw [if_neg (cskv_neg "downscale_factor:".toList "downscale_factor".toList "h264_bitrate".toList val (by decide) (by decide) (by decide) hvc (by decide))]
  rw [if_neg (cskv_neg "output_width:".toList "output_width".toList "h264_bitrate".toList val (by decide) (by decide) (by decide) hvc (by decide))]
  rw [if_neg (cskv_neg "output_height:".toList "output_height".toList "h264_bitrate".toList val (by decide) (by decide) (by decide) hvc (by decide))]
  rw [if_neg (cskv_neg "compression_method:".toList "compression_method".toList "h264_bitrate".toList val (by decide) (by decide) (by decide) hvc (by decide))]
  rw [if_neg (cskv_neg "vr_enabled:".toList "vr_enabled".toList "h264_bitrate".toList val (by decide) (by decide) (by decide) hvc (by decide))]
  rw [if_neg (cskv_neg "eye_separation:".toList "eye_separation".toList "h264_bitrate".toList val (by decide) (by decide) (by decide) hvc (by decide))]
  rw [if_neg (cskv_neg "use_gpu:".toList "use_gpu".toList "h264_bitrate".toList val (by decide) (by decide) (by decide) hvc (by decide))]
  rw [if_neg (cskv_neg "gpu_device_id:".toList "gpu_device_id".toList "h264_bitrate".toList val (by decide) (by decide) (by decide) hvc (by decide))]
  rw [if_neg (cskv_neg "use_nvenc:".toList "use_nvenc".toList "h264_bitrate".toList val (by decide) (by decide) (by decide) hvc (by decide))]
  rw [if_neg (cskv_neg "use_nvjpeg:".toList "use_nvjpeg".toList "h264_bitrate".toList val (by decide) (by decide) (by decide) hvc (by decide))]
  rw [if_pos (cskv_pos "h264_bitrate:".toList "h264_bitrate".toList "h264_bitrate".toList val (by decide) (by decide) (by decide) hvc (by decide))]

theorem CD_enc_h264_gop_length (cfg : Config) (val pv : Str) (hvc : ':' ∉ val) :
    encoderDispatch cfg (kvLine "h264_gop_length".toList val) pv =
      { cfg with encoder.h264_gop_length := stoiNat pv } := by
  unfold encoderDispatch
  rw [if_neg (cskv_neg "jpeg_quality:".toList "jpeg_quality".toList "h264_gop_length".toList val (by decide) (by decide) (by decide) hvc (by decide))]
  rw [if_neg (cskv_neg "downscale_factor:".toList "downscale_factor".toList "h264_gop_length".toList val (by decide) (by decide) (by decide) hvc (by decide))]
  rw [if_neg (cskv_neg "output_width:".toList "output_width".toList "h264_gop_length".toList val (by decide) (by decide) (by decide) hvc (by decide))]
  rw [if_neg (cskv_neg "output_height:".toList "output_height".toList "h264_gop_length".toList val (by decide) (by decide) (by decide) hvc (by decide))]
  rw [if_neg (cskv_neg "compression_method:".toList "compression_method".toList "h264_gop_length".toList val (by decide) (by decide) (by decide) hvc (by decide))]
  rw [if_neg (cskv_neg "vr_enabled:".toList "vr_enabled".toList "h264_gop_length".toList val (by decide) (by decide) (by decide) hvc (by decide))]
  rw [if_neg (cskv_neg "eye_separation:".toList "eye_separation".toList "h264_gop_length".toList val (by decide) (by decide) (by decide) hvc (by decide))]
  rw [if_neg (cskv_neg "use_gpu:".toList "use_gpu".toList "h264_gop_length".toList val (by decide) (by decide) (by decide) hvc (by decide))]
  rw [if_neg (cskv_neg "gpu_device_id:".toList "gpu_device_id".toList "h264_gop_length".toList val (by decide) (by decide) (by decide) hvc (by decide))]
  rw [if_neg (cskv_neg "use_nvenc:".toList "use_nvenc".toList "h264_gop_length".toList val (by decide) (by decide) (by decide) hvc (by decide))]
  rw [if_neg (cskv_neg "use_nvjpeg:".toList "use_nvjpeg".toList "h264_gop_length".toList val (by decide) (by decide) (by decide) hvc (by decide))]
  rw [if_neg (cskv_neg "h264_bitrate:".toList "h264_bitrate".toList "h264_gop_length".toList val (by decide) (by decide) (by decide) hvc (by decide))]
  rw [if_pos (cskv_pos "h264_gop_length:".toList "h264_gop_length".toList "h264_gop_length".toList val (by decide) (by decide) (by decide) hvc (by decide))]

theorem CD_net_host (cfg : Config) (val pv : Str) (hvc : ':' ∉ val) :
    networkDispatch cfg (kvLine "host".toList val) pv =
      { cfg with network.host := pv } := by
  unfold networkDispatch
  rw [if_pos (cskv_pos "host:".toList "host".toList "host".toList val (by decide) (by decide) (by decide) hvc (by decide))]

theorem CD_net_http_port (cfg : Config) (val pv : Str) (hvc : ':' ∉ val) :
    networkDispatch cfg (kvLine "http_port".toList val) pv =
      { cfg with network.http_port := stoiNat pv % 65536 } := by
  unfold networkDispatch
  rw [if_neg (cskv_neg "host:".toList "host".toList "http_port".toList val (by decide) (by decide) (by decide) hvc (by decide))]
  rw [if_pos (cskv_pos "http_port:".toList "http_port".toList "http_port".toList val (by decide) (by decide) (by decide) hvc (by decide))]

theorem CD_net_port (cfg : Config) (val pv : Str) (hvc : ':' ∉ val) :
    networkDispatch cfg (kvLine "port".toList val) pv =
      { cfg with network.port := stoiNat pv % 65536 } := by
  unfold networkDispatch
  rw [if_neg (cskv_neg "host:".toList "host".toList "port".toList val (by decide) (by decide) (by decide) hvc (by decide))]
  rw [if_neg (cskv_neg "http_port:".toList "http_port".toList "port".toList val (by decide) (by decide) (by decide) hvc (by decide))]
  rw [if_pos (cskv_pos "port:".toList "port".toList "port".toList val (by decide) (by decide) (by decide) hvc (by decide))]

theorem CD_net_static_ip (cfg : Config) (val pv : Str) (hvc : ':' ∉ val) :
    networkDispatch cfg (kvLine "static_ip".toList val) pv =
      { cfg with network.static_ip := pv } := by
  unfold networkDispatch
  rw [if_neg (cskv_neg "host:".toList "host".toList "static_ip".toList val (by decide) (by decide) (by decide) hvc (by decide))]
  rw [if_neg (cskv_neg "http_port:".toList "http_port".toList "static_ip".toList val (by decide) (by decide) (by decide) hvc (by decide))]
  rw [if_neg (cskv_neg "port:".toList "port".toList "static_ip".toList val (by decide) (by decide) (by decide) hvc (by decide))]
  rw [if_pos (cskv_pos "static_ip:".toList "static_ip".toList "static_ip".toList val (by decide) (by decide) (by decide) hvc (by decide))]

theorem CD_net_max_clients (cfg : Config) (val pv : Str) (hvc : ':' ∉ val) :
    networkDispatch cfg (kvLine "max_clients".toList val) pv =
      { cfg with network.max_clients := stoiNat pv } := by
  unfold networkDispatch
  rw [if_neg (cskv_neg "host:".toList "host".toList "max_clients".toList val (by decide) (by decide) (by decide) hvc (by decide))]
  rw [if_neg (cskv_neg "http_port:".toList "http_port".toList "max_clients".toList val (by decide) (by decide) (by decide) hvc (by decide))]
  rw [if_neg (cskv_neg "port:".toList "port".toList "max_clients".toList val (by decide) (by decide) (by decide) hvc (by decide))]
  rw [if_neg (cskv_neg "static_ip:".toList "static_ip".toList "max_clients".toList val (by decide) (by decide) (by decide) hvc (by decide))]
  rw [if_pos (cskv_pos "max_clients:".toList "max_clients".toList "max_clients".toList val (by decide) (by decide) (by decide) hvc (by decide))]

theorem CD_net_send_buffer_size (cfg : Config) (val pv : Str) (hvc : ':' ∉ val) :
    networkDispatch cfg (kvLine "send_buffer_size".toList val) pv =
      { cfg with network.send_buffer_size := stoiNat pv } := by
  unfold networkDispatch
  rw [if_neg (cskv_neg "host:".toList "host".toList "send_buffer_size".toList val (by decide) (by decide) (by decide) hvc (by decide))]
  rw [if_neg (cskv_neg "http_port:".toList "http_port".toList "send_buffer_size".toList val (by decide) (by decide) (by decide) hvc (by decide))]
  rw [if_neg (cskv_neg "port:".toList "port".toList "send_buffer_size".toList val (by decide) (by decide) (by decide) hvc (by decide))]
  rw [if_neg (cskv_neg "static_ip:".toList "static_ip".toList "send_buffer_size".toList val (by decide) (by decide) (by decide) hvc (by decide))]
  rw [if_neg (cskv_neg "max_clients:".toList "max_clients".toList "send_buffer_size".toList val (by decide) (by decide) (by decide) hvc (by decide))]
  rw [if_pos (cskv_pos "send_buffer_size:".toList "send_buffer_size".toList "send_buffer_size".toList val (by decide) (by decide) (by decide) hvc (by decide))]

theorem CD_net_ping_interval (cfg : Config) (val pv : Str) (hvc : ':' ∉ val) :
    networkDispatch cfg (kvLine "ping_interval".toList val) pv =
      { cfg with network.ping_interval := stofDec pv } := by
  unfold networkDispatch
  rw [if_neg (cskv_neg "host:".toList "host".toList "ping_interval".toList val (by decide) (by decide) (by decide) hvc (by decide))]
  rw [if_neg (cskv_neg "http_port:".toList "http_port".toList "ping_interval".toList val (by decide) (by decide) (by decide) hvc (by decide))]
  rw [if_neg (cskv_neg "port:".toList "port".toList "ping_interval".toList val (by decide) (by decide) (by decide) hvc (by decide))]
  rw [if_neg (cskv_neg "static_ip:".toList "static_ip".toList "ping_interval".toList val (by decide) (by decide) (by decide) hvc (by decide))]
  rw [if_neg (cskv_neg "max_clients:".toList "max_clients".toList "ping_interval".toList val (by decide) (by decide) (by decide) hvc (by decide))]
  rw [if_neg (cskv_neg "send_buffer_size:".toList "send_buffer_size".toList "ping_interval".toList val (by decide) (by decide) (by decide) hvc (by decide))]
  rw [if_pos (cskv_pos "ping_interval:".toList "ping_interval".toList "ping_interval".toList val (by decide) (by decide) (by decide) hvc (by decide))]

theorem LS_cap_target_fps (cfg : Config) (n : ℕ) :
    loadStep (cfg, "capture".toList) (kvLine "target_fps".toList (natToChars n)) =
      ({ cfg with capture.target_fps := n }, "capture".toList) := by
  obtain ⟨hv3, hvc⟩ := val_conditions _ (mem_natToChars_class n)
  rw [LS_capture_line cfg _ _ _ (parseValue_kvLine _ _ (by decide) hv3) (natToChars_ne_nil n)]
  rw [CD_cap_target_fps cfg _ _ hvc]
  rw [stoiNat_natToChars]

theorem LS_cap_monitor_index (cfg : Config) (n : ℕ) :
    loadStep (cfg, "capture".toList) (kvLine "monitor_index".toList (natToChars n)) =
      ({ cfg with capture.monitor_index := n }, "capture".toList) := by
  obtain ⟨hv3, hvc⟩ := val_conditions _ (mem_natToChars_class n)
  rw [LS_capture_line cfg _ _ _ (parseValue_kvLine _ _ (by decide) hv3) (natToChars_ne_nil n)]
  rw [CD_cap_monitor_index cfg _ _ hvc]
  rw [stoiNat_natToChars]

theorem LS_cap_capture_cursor (cfg : Config) (b : Bool) :
    loadStep (cfg, "capture".toList) (kvLine "capture_cursor".toList (boolChars b)) =
      ({ cfg with capture.capture_cursor := b }, "capture".toList) := by
  cases b <;> rfl

theorem LS_cap_use_gpu_capture (cfg : Config) (b : Bool) :
    loadStep (cfg, "capture".toList) (kvLine "use_gpu_capture".toList (boolChars b)) =
      ({ cfg with capture.use_gpu_capture := b }, "capture".toList) := by
  cases b <;> rfl

theorem LS_cap_frame_buffer_count (cfg : Config) (n : ℕ) :
    loadStep (cfg, "capture".toList) (kvLine "frame_buffer_count".toList (natToChars n)) =
      ({ cfg with capture.frame_buffer_count := n }, "capture".toList) := by
  obtain ⟨hv3, hvc⟩ := val_conditions _ (mem_natToChars_class n)
  rw [LS_capture_line cfg _ _ _ (parseValue_kvLine _ _ (by decide) hv3) (natToChars_ne_nil n)]
  rw [CD_cap_frame_buffer_count cfg _ _ hvc]
  rw [stoiNat_natToChars]

theorem LS_cap_wait_for_vsync (cfg : Config) (b : Bool) :
    loadStep (cfg, "capture".toList) (kvLine "wait_for_vsync".toList (boolChars b)) =
      ({ cfg with capture.wait_for_vsync := b }, "capture".toList) := by
  cases b <;> rfl

theorem LS_enc_jpeg_quality (cfg : Config) (n : ℕ) :
    loadStep (cfg, "encoder".toList) (kvLine "jpeg_quality".toList (natToChars n)) =
      ({ cfg with encoder.jpeg_quality := n }, "encoder".toList) := by
  obtain ⟨hv3, hvc⟩ := val_conditions _ (mem_natToChars_class n)
  rw [LS_encoder_line cfg _ _ _ (parseValue_kvLine _ _ (by decide) hv3) (natToChars_ne_nil n)]
  rw [CD_enc_jpeg_quality cfg _ _ hvc]
  rw [stoiNat_natToChars]

theorem LS_enc_downscale_factor (cfg : Config) (d : Dec) :
    loadStep (cfg, "encoder".toList) (kvLine "downscale_factor".toList (decToChars d)) =
      ({ cfg with encoder.downscale_factor := d }, "encoder".toList) := by
  obtain ⟨hv3, hvc⟩ := val_conditions _ (mem_decToChars_class d)
  rw [LS_encoder_line cfg _ _ _ (parseValue_kvLine _ _ (by decide) hv3) (decToChars_ne_nil d)]
  rw [CD_enc_downscale_factor cfg _ _ hvc]
  rw [stofDec_decToChars]

theorem LS_enc_output_width (cfg : Config) (n : ℕ) :
    loadStep (cfg, "encoder".toList) (kvLine "output_width".toList (natToChars n)) =
      ({ cfg with encoder.output_width := n }, "encoder".toList) := by
  obtain ⟨hv3, hvc⟩ := val_conditions _ (mem_natToChars_class n)
  rw [LS_encoder_line cfg _ _ _ (parseValue_kvLine _ _ (by decide) hv3) (natToChars_ne_nil n)]
  rw [CD_enc_output_width cfg _ _ hvc]
  rw [stoiNat_natToChars]

theorem LS_enc_output_height (cfg : Config) (n : ℕ) :
    loadStep (cfg, "encoder".toList) (kvLine "output_height".toList (natToChars n)) =
      ({ cfg with encoder.output_height := n }, "encoder".toList) := by
  obtain ⟨hv3, hvc⟩ := val_conditions _ (mem_natToChars_class n)
  rw [LS_encoder_line cfg _ _ _ (parseValue_kvLine _ _ (by decide) hv3) (natToChars_ne_nil n)]
  rw [CD_enc_output_height cfg _ _ hvc]
  rw [stoiNat_natToChars]

theorem LS_enc_compression_method (cfg : Config) (m : Method) :
    loadStep (cfg, "encoder".toList) (kvLine "compression_method".toList (methodChars m)) =
      ({ cfg with encoder.method := m }, "encoder".toList) := by
  cases m <;> rfl

theorem LS_enc_vr_enabled (cfg : Config) (b : Bool) :
    loadStep (cfg, "encoder".toList) (kvLine "vr_enabled".toList (boolChars b)) =
      ({ cfg with encoder.vr_enabled := b }, "encoder".toList) := by
  cases b <;> rfl

theorem LS_enc_eye_separation (cfg : Config) (d : Dec) :
    loadStep (cfg, "encoder".toList) (kvLine "eye_separation".toList (decToChars d)) =
      ({ cfg with encoder.eye_separation := d }, "encoder".toList) := by
  obtain ⟨hv3, hvc⟩ := val_conditions _ (mem_decToChars_class d)
  rw [LS_encoder_line cfg _ _ _ (parseValue_kvLine _ _ (by decide) hv3) (decToChars_ne_nil d)]
  rw [CD_enc_eye_separation cfg _ _ hvc]
  rw [stofDec_decToChars]

theorem LS_enc_use_gpu (cfg : Config) (b : Bool) :
    loadStep (cfg, "encoder".toList) (kvLine "use_gpu".toList (boolChars b)) =
      ({ cfg with encoder.use_gpu := b }, "encoder".toList) := by
  cases b <;> rfl

theorem LS_enc_gpu_device_id (cfg : Config) (z : ℤ) :
    loadStep (cfg, "encoder".toList) (kvLine "gpu_device_id".toList (intToChars z)) =
      ({ cfg with encoder.gpu_device_id := z }, "encoder".toList) := by
  obtain ⟨hv3, hvc⟩ := val_conditions _ (mem_intToChars_class z)
  rw [LS_encoder_line cfg _ _ _ (parseValue_kvLine _ _ (by decide) hv3) (intToChars_ne_nil z)]
  rw [CD_enc_gpu_device_id cfg _ _ hvc]
  rw [stoiInt_intToChars]

theorem LS_enc_use_nvenc (cfg : Config) (b : Bool) :
    loadStep (cfg, "encoder".toList) (kvLine "use_nvenc".toList (boolChars b)) =
      ({ cfg with encoder.use_nvenc := b }, "encoder".toList) := by
  cases b <;> rfl

theorem LS_enc_use_nvjpeg (cfg : Config) (b : Bool) :
    loadStep (cfg, "encoder".toList) (kvLine "use_nvjpeg".toList (boolChars b)) =
      ({ cfg with encoder.use_nvjpeg := b }, "encoder".toList) := by
  cases b <;> rfl

theorem LS_enc_h264_bitrate (cfg : Config) (n : ℕ) :
    loadStep (cfg, "encoder".toList) (kvLine "h264_bitrate".toList (natToChars n)) =
      ({ cfg with encoder.h264_bitrate := n }, "encoder".toList) := by
  obtain ⟨hv3, hvc⟩ := val_conditions _ (mem_natToChars_class n)
  rw [LS_encoder_line cfg _ _ _ (parseValue_kvLine _ _ (by decide) hv3) (natToChars_ne_nil n)]
  rw [CD_enc_h264_bitrate cfg _ _ hvc]
  rw [stoiNat_natToChars]

theorem LS_enc_h264_gop_length (cfg : Config) (n : ℕ) :
    loadStep (cfg, "encoder".toList) (kvLine "h264_gop_length".toList (natToChars n)) =
      ({ cfg with encoder.h264_gop_length := n }, "encoder".toList) := by
  obtain ⟨hv3, hvc⟩ := val_conditions _ (mem_natToChars_class n)
  rw [LS_encoder_line cfg _ _ _ (parseValue_kvLine _ _ (by decide) hv3) (natToChars_ne_nil n)]
  rw [CD_enc_h264_gop_length cfg _ _ hvc]
  rw [stoiNat_natToChars]

theorem LS_enc_h264_low_latency (cfg : Config) (b : Bool) :
    loadStep (cfg, "encoder".toList) (kvLine "h264_low_latency".toList (boolChars b)) =
      ({ cfg with encoder.h264_low_latency := b }, "encoder".toList) := by
  cases b <;> rfl

theorem LS_net_host (cfg : Config) (s : Str) (hs : plainStr s) :
    loadStep (cfg, "network".toList) (kvLine "host".toList ('"' :: s ++ ['"'])) =
      ({ cfg with network.host := s }, "network".toList) := by
  have hvc : ':' ∉ ('"' :: s) ++ ['"'] := by
    intro h
    rcases List.mem_append.1 h with h | h
    · rcases List.mem_cons.1 h with h | h
      · exact absurd h (by decide)
      · exact (plainChar_ne (hs.2 ':' h)).2.2.2.1 rfl
    · exact absurd (List.mem_singleton.1 h) (by decide)
  rw [LS_network_line cfg _ _ _ (parseValue_kvLine_quoted _ _ (by decide) hs.2) hs.1]
  rw [CD_net_host cfg _ _ hvc]

theorem LS_net_http_port (cfg : Config) (n : ℕ) (hp : n < 65536) :
    loadStep (cfg, "network".toList) (kvLine "http_port".toList (natToChars n)) =
      ({ cfg with network.http_port := n }, "network".toList) := by
  obtain ⟨hv3, hvc⟩ := val_conditions _ (mem_natToChars_class n)
  rw [LS_network_line cfg _ _ _ (parseValue_kvLine _ _ (by decide) hv3) (natToChars_ne_nil n)]
  rw [CD_net_http_port cfg _ _ hvc]
  rw [stoiNat_natToChars, Nat.mod_eq_of_lt hp]

theorem LS_net_port (cfg : Config) (n : ℕ) (hp : n < 65536) :
    loadStep (cfg, "network".toList) (kvLine "port".toList (natToChars n)) =
      ({ cfg with network.port := n }, "network".toList) := by
  obtain ⟨hv3, hvc⟩ := val_conditions _ (mem_natToChars_class n)
  rw [LS_network_line cfg _ _ _ (parseValue_kvLine _ _ (by decide) hv3) (natToChars_ne_nil n)]
  rw [CD_net_port cfg _ _ hvc]
  rw [stoiNat_natToChars, Nat.mod_eq_of_lt hp]

theorem LS_net_static_ip (cfg : Config) (s : Str) (hs : plainStr s) :
    loadStep (cfg, "network".toList) (kvLine "static_ip".toList ('"' :: s ++ ['"'])) =
      ({ cfg with network.static_ip := s }, "network".toList) := by
  have hvc : ':' ∉ ('"' :: s) ++ ['"'] := by
    intro h
    rcases List.mem_append.1 h with h | h
    · rcases List.mem_cons.1 h with h | h
      · exact absurd h (by decide)
      · exact (plainChar_ne (hs.2 ':' h)).2.2.2.1 rfl
    · exact absurd (List.mem_singleton.1 h) (by decide)
  rw [LS_network_line cfg _ _ _ (parseValue_kvLine_quoted _ _ (by decide) hs.2) hs.1]
  rw [CD_net_static_ip cfg _ _ hvc]

theorem LS_net_max_clients (cfg : Config) (n : ℕ) :
    loadStep (cfg, "network".toList) (kvLine "max_clients".toList (natToChars n)) =
      ({ cfg with network.max_clients := n }, "network".toList) := by
  obtain ⟨hv3, hvc⟩ := val_conditions _ (mem_natToChars_class n)
  rw [LS_network_line cfg _ _ _ (parseValue_kvLine _ _ (by decide) hv3) (natToChars_ne_nil n)]
  rw [CD_net_max_clients cfg _ _ hvc]
  rw [stoiNat_natToChars]

theorem LS_net_send_buffer_size (cfg : Config) (n : ℕ) :
    loadStep (cfg, "network".toList) (kvLine "send_buffer_size".toList (natToChars n)) =
      ({ cfg with network.send_buffer_size := n }, "network".toList) := by
  obtain ⟨hv3, hvc⟩ := val_conditions _ (mem_natToChars_class n)
  rw [LS_network_line cfg _ _ _ (parseValue_kvLine _ _ (by decide) hv3) (natToChars_ne_nil n)]
  rw [CD_net_send_buffer_size cfg _ _ hvc]
  rw [stoiNat_natToChars]

theorem LS_net_ping_interval (cfg : Config) (d : Dec) :
    loadStep (cfg, "network".toList) (kvLine "ping_interval".toList (decToChars d)) =
      ({ cfg with network.ping_interval := d }, "network".toList) := by
  obtain ⟨hv3, hvc⟩ := val_conditions _ (mem_decToChars_class d)
  rw [LS_network_line cfg _ _ _ (parseValue_kvLine _ _ (by decide) hv3) (decToChars_ne_nil d)]
  rw [CD_net_ping_interval cfg _ _ hvc]
  rw [stofDec_decToChars]

theorem LS_net_use_tcp_nodelay (cfg : Config) (b : Bool) :
    loadStep (cfg, "network".toList) (kvLine "use_tcp_nodelay".toList (boolChars b)) =
      ({ cfg with network.use_tcp_nodelay := b }, "network".toList) := by
  cases b <;> rfl

theorem LS_net_use_cork (cfg : Config) (b : Bool) :
    loadStep (cfg, "network".toList) (kvLine "use_cork".toList (boolChars b)) =
      ({ cfg with network.use_cork := b }, "network".toList) := by
  cases b <;> rfl

theorem LS_net_static_ip_nil (cfg : Config) :
    loadStep (cfg, "network".toList)
      (kvLine "static_ip".toList ('"' :: [] ++ ['"'])) =
      (cfg, "network".toList) := rfl

/-- C8 counterexample: saving a config whose `network.host` is the empty
string and loading it back does not restore the config — the quoted
empty value is trimmed to nothing, the line is skipped, and the
default-constructed host `"0.0.0.0"` survives. -/
theorem C8_claim_false : loadLines (saveLines cfgC8) ≠ cfgC8 := by
  decide

set_option maxHeartbeats 2000000 in
/-- C8 amended: `Config::save` followed by `Config::load` restores every
enumerated key, for every configuration in the faithful domain of the
model: host-like string fields (nonempty `host`, empty or host-like
`static_ip`), ports within `u16`, the `stoi`-parsed integer fields within
`int` range, and the `f32` fields exact decimals of at most six
significant digits (which the stream prints verbatim). -/
theorem C8_amended_thm (c : Config)
    (hhost : plainStr c.network.host)
    (hsip : c.network.static_ip = [] ∨ plainStr c.network.static_ip)
    (hport : c.network.port < 65536) (hhttp : c.network.http_port < 65536)
    (hfps : c.capture.target_fps < 2 ^ 31)
    (hmon : c.capture.monitor_index < 2 ^ 31)
    (hfbc : c.capture.frame_buffer_count < 2 ^ 31)
    (hjq : c.encoder.jpeg_quality < 2 ^ 31)
    (how2 : c.encoder.output_width < 2 ^ 31)
    (hoh : c.encoder.output_height < 2 ^ 31)
    (hgid : c.encoder.gpu_device_id.natAbs < 2 ^ 31)
    (hbr : c.encoder.h264_bitrate < 2 ^ 31)
    (hgop : c.encoder.h264_gop_length < 2 ^ 31)
    (hmc : c.network.max_clients < 2 ^ 31)
    (hsbs : c.network.send_buffer_size < 2 ^ 31)
    (hdsm : c.encoder.downscale_factor.mant < 10 ^ 6)
    (hesm : c.encoder.eye_separation.mant < 10 ^ 6)
    (hpim : c.network.ping_interval.mant < 10 ^ 6) :
    loadLines (saveLines c) = c := by
  obtain ⟨⟨fps, mon, cur, gcap, fbc, vs⟩,
    ⟨jq, ds, ow, oh, m, vr, es, ug, gid, nve, nvj, br, gop, lat⟩,
    ⟨host, port, hport2, sip, mc, sbs, pi, tnd, cork⟩⟩ := c
  unfold loadLines saveLines
  rw [List.foldl_cons, loadStep_comment]
  rw [List.foldl_cons, loadStep_nil]
  rw [List.foldl_cons, loadStep_sect_capture]
  rw [List.foldl_cons, LS_cap_target_fps]
  rw [List.foldl_cons, LS_cap_monitor_index]
  rw [List.foldl_cons, LS_cap_capture_cursor]
  rw [List.foldl_cons, LS_cap_use_gpu_capture]
  rw [List.foldl_cons, LS_cap_frame_buffer_count]
  rw [List.foldl_cons, LS_cap_wait_for_vsync]
  rw [List.foldl_cons, loadStep_nil]
  rw [List.foldl_cons, loadStep_sect_encoder]
  rw [List.foldl_cons, LS_enc_jpeg_quality]
  rw [List.foldl_cons, LS_enc_downscale_factor]
  rw [List.foldl_cons, LS_enc_output_width]
  rw [List.foldl_cons, LS_enc_output_height]
  rw [List.foldl_cons, LS_enc_compression_method]
  rw [List.foldl_cons, LS_enc_vr_enabled]
  rw [List.foldl_cons, LS_enc_eye_separation]
  rw [List.foldl_cons, LS_enc_use_gpu]
  rw [List.foldl_cons, LS_enc_gpu_device_id]
  rw [List.foldl_cons, LS_enc_use_nvenc]
  rw [List.foldl_cons, LS_enc_use_nvjpeg]
  rw [List.foldl_cons, LS_enc_h264_bitrate]
  rw [List.foldl_cons, LS_enc_h264_gop_length]
  rw [List.foldl_cons, LS_enc_h264_low_latency]
  rw [List.foldl_cons, loadStep_nil]
  rw [List.foldl_cons, loadStep_sect_network]
  rw [List.foldl_cons, LS_net_host _ _ hhost]
  rw [List.foldl_cons, LS_net_port _ _ hport]
  rw [List.foldl_cons, LS_net_http_port _ _ hhttp]
  rcases hsip with hnil | hplain
  · rw [show sip = [] from hnil]
    rw [List.foldl_cons, LS_net_static_ip_nil]
    rw [List.foldl_cons, LS_net_max_clients]
    rw [List.foldl_cons, LS_net_send_buffer_size]
    rw [List.foldl_cons, LS_net_ping_interval]
    rw [List.foldl_cons, LS_net_use_tcp_nodelay]
    rw [List.foldl_cons, LS_net_use_cork]
    rw [List.foldl_nil]
    rfl
  · rw [List.foldl_cons, LS_net_static_ip _ _ hplain]
    rw [List.foldl_cons, LS_net_max_clients]
    rw [List.foldl_cons, LS_net_send_buffer_size]
    rw [List.foldl_cons, LS_net_ping_interval]
    rw [List.foldl_cons, LS_net_use_tcp_nodelay]
    rw [List.foldl_cons, LS_net_use_cork]
    rw [List.foldl_nil]

/-- Witness for `C8_amended_thm` at the default configuration. -/
theorem C8_amended_thm_witness :
    (plainStr defaultConfig.network.host ∧
      defaultConfig.network.static_ip = [] ∧
      defaultConfig.network.port < 65536) ∧
    loadLines (saveLines defaultConfig) = defaultConfig :=
  ⟨⟨by decide, by decide, by decide⟩,
   C8_amended_thm defaultConfig (by decide) (Or.inl (by decide)) (by decide)
     (by decide) (by decide) (by decide) (by decide) (by decide) (by decide)
     (by decide) (by decide) (by decide) (by decide) (by decide) (by decide)
     (by decide) (by decide) (by decide)⟩

end VRS
